import Mathlib

/-!
# Verification of the BeatMyBot snake-game engine

A shallow embedding of the Go engine (`engine/game.go`, `engine/process.go`,
`engine/match.go`) of the BeatMyBot v1 match judge, together with theorems
settling the specification claims about it.

Conventions of the embedding:
* Go `int` is modelled as `Int` (grid coordinates may go negative on a wall hit).
* Go's in-place mutation of `GameState` / `Snake` becomes explicit state passing:
  each mutating method returns the updated value.
* The two calls to `rand.Intn` inside `SpawnApple` are modelled by two explicit
  `Nat` parameters, reduced with `%` exactly where `rand.Intn` bounds them.
* Go string `Direction` values are modelled by an inductive type of the four
  constants the engine ever assigns.
-/

namespace Engine

/-- Movement direction (`Direction` in game.go). -/
inductive Direction where
  | up
  | down
  | left
  | right
deriving DecidableEq, Repr

/-- Apple type tag (`AppleType` in game.go). -/
inductive AppleType where
  | normal
  | god
  | speed
  | sleep
  | poison
deriving DecidableEq, Repr

/-- A coordinate on the grid (`Position` in game.go). -/
structure Position where
  x : Int
  y : Int
deriving DecidableEq, Repr

/-- An apple on the grid (`Apple` in game.go). -/
structure Apple where
  x : Int
  y : Int
  type : AppleType
deriving DecidableEq, Repr

/-- A player's snake (`Snake` in game.go). Head is `body[0]`. -/
structure Snake where
  id : Int
  body : List Position
  direction : Direction
  alive : Bool
  length : Int
  score : Int
  speedTurns : Int
  sleepTurns : Int
  energy : Int
  deathReason : String
deriving DecidableEq, Repr

/-- Static map data (`Map` in game.go). -/
structure Map where
  width : Int
  height : Int
  obstacles : List Position
deriving DecidableEq, Repr

/-- The complete game state (`GameState` in game.go).
The Go fixed array `Snakes [2]*Snake` is modelled as a pair. -/
structure GameState where
  turn : Int
  gridWidth : Int
  gridHeight : Int
  snakes : Snake × Snake
  apples : List Apple
  map : Option Map
  winner : Int
  gameOver : Bool
deriving DecidableEq, Repr

/-- Snake lookup by 1-based player id, as `gs.Snakes[snakeID-1]` in game.go. -/
def GameState.getSnake (gs : GameState) (snakeID : Nat) : Snake :=
  if snakeID = 1 then gs.snakes.1 else gs.snakes.2

/-- Write back the snake of a 1-based player id. -/
def GameState.setSnake (gs : GameState) (snakeID : Nat) (s : Snake) : GameState :=
  if snakeID = 1 then { gs with snakes := (s, gs.snakes.2) }
  else { gs with snakes := (gs.snakes.1, s) }

/-- `GetHead` of game.go: head position, `(-1,-1)` sentinel for an empty body. -/
def Snake.GetHead (s : Snake) : Position :=
  match s.body with
  | [] => ⟨-1, -1⟩
  | h :: _ => h

/-- The opposite-direction table built inside `isNot180` in game.go. -/
def opposite : Direction → Direction
  | .up => .down
  | .down => .up
  | .left => .right
  | .right => .left

/-- `isNot180` of game.go: a body shorter than 2 admits any turn; otherwise the
requested direction must not be the opposite of the current one. -/
def Snake.isNot180 (s : Snake) (newDir : Direction) : Bool :=
  if s.body.length < 2 then true
  else opposite s.direction ≠ newDir

/-- `getNextPosition` of game.go. -/
def getNextPosition (pos : Position) (dir : Direction) : Position :=
  match dir with
  | .up => ⟨pos.x, pos.y - 1⟩
  | .down => ⟨pos.x, pos.y + 1⟩
  | .left => ⟨pos.x - 1, pos.y⟩
  | .right => ⟨pos.x + 1, pos.y⟩

/-- `Move` of game.go: dead snakes do not move; a 180-degree request keeps the
current direction; the new head is prepended and the tail dropped unless
growing. -/
def Snake.Move (s : Snake) (newDirection : Direction) (grow : Bool) : Snake :=
  if !s.alive then s
  else
    let s := if s.isNot180 newDirection then { s with direction := newDirection } else s
    let newHead := getNextPosition s.GetHead s.direction
    let body := newHead :: s.body
    if !grow then { s with body := body.dropLast }
    else { s with body := body, length := s.length + 1 }

/-- `manhattanDistance` of game.go. -/
def manhattanDistance (p1 p2 : Position) : Int :=
  let dx := p1.x - p2.x
  let dx := if dx < 0 then -dx else dx
  let dy := p1.y - p2.y
  let dy := if dy < 0 then -dy else dy
  dx + dy

/-- Whitespace test of Go's `strings.TrimSpace` (ASCII core). -/
def isSpaceChar (c : Char) : Bool :=
  c = ' ' ∨ c = '\t' ∨ c = '\n' ∨ c = '\r'

/-- Go's `strings.TrimSpace` (standard library, outside this repository),
modelled structurally over the character list: drop whitespace from both
ends. -/
def goTrimSpace (s : String) : String :=
  ⟨((s.data.dropWhile isSpaceChar).reverse.dropWhile isSpaceChar).reverse⟩

/-- Go's `strings.ToUpper` (standard library, outside this repository),
modelled structurally over the character list. -/
def goToUpper (s : String) : String :=
  ⟨s.data.map Char.toUpper⟩

/-- `parseMove` of process.go: trim, uppercase, resolve aliases, default `UP`. -/
def parseMove (moveStr : String) : Direction :=
  let m := goToUpper (goTrimSpace moveStr)
  if m = "UP" ∨ m = "U" ∨ m = "W" then .up
  else if m = "DOWN" ∨ m = "D" ∨ m = "S" then .down
  else if m = "LEFT" ∨ m = "L" ∨ m = "A" then .left
  else if m = "RIGHT" ∨ m = "R" then .right
  else .up

/-- The response-line resolution inside `GetMove` of process.go: a successful
JSON decode of `{"move": t}` yields the token `t`; on JSON failure the whole
(already trimmed) line, uppercased, is used as a bare token. The outcome of
Go's `json.Unmarshal` (standard library, outside this repository) is abstracted
as the `Option String` argument. -/
def resolveMoveLine (jsonMove : Option String) (line : String) : Direction :=
  match jsonMove with
  | some t => parseMove t
  | none => parseMove (goToUpper line)

/-- `getDefaultMove` of process.go: the requesting agent's own snake's current
direction, looked up by player slot in the given (live) state. -/
def getDefaultMove (gs : GameState) (botID : Nat) : Direction :=
  (gs.getSnake botID).direction

/-- The per-recipient snake reordering performed by `ToJSON` of game.go: bot 2
sees the snakes swapped so its own snake is at index 0. -/
def stateForBot (gs : GameState) (botID : Nat) : GameState :=
  if botID = 2 then { gs with snakes := (gs.snakes.2, gs.snakes.1) } else gs

/-- The observable outcome of the concurrent read in `GetMove` of process.go,
abstracting the channel/`select` race: either the deadline fired, the write to
the bot failed, the scanner failed (EOF/error), or one response line arrived
(paired with the abstracted `json.Unmarshal` outcome for it). -/
inductive MoveEvent where
  | timeout
  | writeErr
  | readFail
  | respond (line : String) (jsonMove : Option String)
deriving DecidableEq, Repr

/-- The move/timeout result of `GetMove` of process.go as a function of the
state, the requesting bot, the `isRunning` flag, and the observed event. -/
def GetMove (gs : GameState) (botID : Nat) (isRunning : Bool) (ev : MoveEvent) :
    Direction × Bool :=
  if !isRunning then (getDefaultMove gs botID, false)
  else
    match ev with
    | .timeout => (getDefaultMove gs botID, true)
    | .writeErr => (getDefaultMove gs botID, false)
    | .readFail => (getDefaultMove gs botID, false)
    | .respond line jsonMove => (resolveMoveLine jsonMove line, false)

/-- `CheckCollision` of game.go: checks the snake `snakeID` against walls, its
own body, the other snake's body (excluding the head), and map obstacles.
Returns the updated state (the snake possibly killed with a death reason) and
whether a collision occurred. -/
def GameState.CheckCollision (gs : GameState) (snakeID : Nat) : GameState × Bool :=
  let snake := gs.getSnake snakeID
  if !snake.alive then (gs, false)
  else
    let head := snake.GetHead
    if head.x < 0 || head.x ≥ gs.gridWidth || head.y < 0 || head.y ≥ gs.gridHeight then
      (gs.setSnake snakeID { snake with alive := false, deathReason := "wall" }, true)
    else if (snake.body.drop 1).any (fun seg => head.x == seg.x && head.y == seg.y) then
      (gs.setSnake snakeID { snake with alive := false, deathReason := "self" }, true)
    else
      let otherSnake := gs.getSnake (if snakeID = 1 then 2 else 1)
      if (otherSnake.body.drop 1).any (fun seg => head.x == seg.x && head.y == seg.y) then
        (gs.setSnake snakeID { snake with alive := false, deathReason := "body" }, true)
      else
        match gs.map with
        | some m =>
          if m.obstacles.any (fun obs => head.x == obs.x && head.y == obs.y) then
            (gs.setSnake snakeID { snake with alive := false, deathReason := "obstacle" }, true)
          else (gs, false)
        | none => (gs, false)

/-- Removal of the first apple matching the head, as the loop in
`CheckAppleEaten` of game.go performs it. -/
def removeFirstEaten (head : Position) : List Apple → List Apple × Option AppleType
  | [] => ([], none)
  | a :: rest =>
    if head.x == a.x && head.y == a.y then (rest, some a.type)
    else
      let r := removeFirstEaten head rest
      (a :: r.1, r.2)

/-- `CheckAppleEaten` of game.go: a living snake eats the first apple under its
head; the apple is removed and its type returned. -/
def GameState.CheckAppleEaten (gs : GameState) (snakeID : Nat) :
    GameState × Option AppleType :=
  let snake := gs.getSnake snakeID
  if !snake.alive then (gs, none)
  else
    let r := removeFirstEaten snake.GetHead gs.apples
    ({ gs with apples := r.1 }, r.2)

/-- `ApplyAppleEffect` of game.go: energy restored to 60, then the
type-specific growth/shrink/score/timer effect. -/
def GameState.ApplyAppleEffect (gs : GameState) (snakeID : Nat) (appleType : AppleType) :
    GameState :=
  let snake := gs.getSnake snakeID
  let otherSnakeID := 3 - snakeID
  let snake := { snake with energy := 60 }
  match appleType with
  | .normal =>
    let snake := { snake with length := snake.length + 1, score := snake.score + 1 }
    let snake :=
      if snake.body.length > 0 then
        { snake with body := snake.body ++ [snake.body.getLastD ⟨-1, -1⟩] }
      else snake
    gs.setSnake snakeID snake
  | .god =>
    let snake := { snake with length := snake.length + 3, score := snake.score + 3 }
    let snake :=
      if snake.body.length > 0 then
        let tail := snake.body.getLastD ⟨-1, -1⟩
        { snake with body := snake.body ++ [tail, tail, tail] }
      else snake
    gs.setSnake snakeID snake
  | .speed =>
    let snake :=
      { snake with length := snake.length + 1, score := snake.score + 1, speedTurns := 5 }
    let snake :=
      if snake.body.length > 0 then
        { snake with body := snake.body ++ [snake.body.getLastD ⟨-1, -1⟩] }
      else snake
    gs.setSnake snakeID snake
  | .sleep =>
    let otherSnake := gs.getSnake otherSnakeID
    let gs := gs.setSnake otherSnakeID { otherSnake with sleepTurns := 5 }
    let snake := { snake with length := snake.length + 1, score := snake.score + 1 }
    let snake :=
      if snake.body.length > 0 then
        { snake with body := snake.body ++ [snake.body.getLastD ⟨-1, -1⟩] }
      else snake
    gs.setSnake snakeID snake
  | .poison =>
    let snake :=
      if snake.length > 1 then
        let snake := { snake with length := snake.length - 1 }
        if snake.body.length > 0 then { snake with body := snake.body.dropLast }
        else snake
      else snake
    let snake := if snake.score > 0 then { snake with score := snake.score - 1 } else snake
    gs.setSnake snakeID snake

/-- The occupied-position set built at the top of `SpawnApple` in game.go:
all snake segments of both snakes, all existing apples, all map obstacles. -/
def GameState.occupied (gs : GameState) (pos : Position) : Bool :=
  gs.snakes.1.body.any (fun seg => seg.x == pos.x && seg.y == pos.y)
  || gs.snakes.2.body.any (fun seg => seg.x == pos.x && seg.y == pos.y)
  || gs.apples.any (fun a => a.x == pos.x && a.y == pos.y)
  || (match gs.map with
      | some m => m.obstacles.any (fun obs => obs.x == pos.x && obs.y == pos.y)
      | none => false)

/-- The three spawn zones of `SpawnApple` in game.go. -/
inductive Zone where
  | neutral
  | snake1
  | snake2
deriving DecidableEq, Repr

/-- The zone classification used by `SpawnApple` in game.go for both empty
cells and existing apples: neutral when the Manhattan distances to the two
heads differ by at most 3, otherwise the zone of the closer head. -/
def classifyZone (head1 head2 pos : Position) : Zone :=
  let dist1 := manhattanDistance pos head1
  let dist2 := manhattanDistance pos head2
  let distDiff := dist1 - dist2
  let distDiff := if distDiff < 0 then -distDiff else distDiff
  if distDiff ≤ 3 then .neutral
  else if dist1 < dist2 then .snake1
  else .snake2

/-- All grid cells in the scan order of `SpawnApple` in game.go
(y outer, x inner). -/
def GameState.gridCells (gs : GameState) : List Position :=
  (List.range gs.gridHeight.toNat).flatMap (fun y =>
    (List.range gs.gridWidth.toNat).map (fun x => ⟨(x : Int), (y : Int)⟩))

/-- The per-zone candidate list of `SpawnApple` in game.go: unoccupied grid
cells classified into the zone. -/
def GameState.zonePositions (gs : GameState) (z : Zone) : List Position :=
  let head1 := gs.snakes.1.GetHead
  let head2 := gs.snakes.2.GetHead
  gs.gridCells.filter (fun pos => !gs.occupied pos && classifyZone head1 head2 pos == z)

/-- The per-zone count of existing apples of `SpawnApple` in game.go,
classified relative to the current heads. -/
def GameState.zoneAppleCount (gs : GameState) (z : Zone) : Nat :=
  let head1 := gs.snakes.1.GetHead
  let head2 := gs.snakes.2.GetHead
  (gs.apples.filter (fun a => classifyZone head1 head2 ⟨a.x, a.y⟩ == z)).length

/-- The zone-selection logic of `SpawnApple` in game.go: start from neutral,
switch to a snake's zone only when that snake's apple count is strictly below
the other snake's and the zone has candidates, then fall back in the order
neutral, snake1, snake2 when the selected list is empty. -/
def GameState.selectedZonePositions (gs : GameState) : List Position :=
  let snake1Positions := gs.zonePositions .snake1
  let snake2Positions := gs.zonePositions .snake2
  let neutralPositions := gs.zonePositions .neutral
  let snake1AppleCount := gs.zoneAppleCount .snake1
  let snake2AppleCount := gs.zoneAppleCount .snake2
  let selectedPositions := neutralPositions
  let selectedPositions :=
    if snake2AppleCount < snake1AppleCount && snake2Positions.length > 0 then
      snake2Positions
    else if snake1AppleCount < snake2AppleCount && snake1Positions.length > 0 then
      snake1Positions
    else selectedPositions
  if selectedPositions.length = 0 then
    if neutralPositions.length > 0 then neutralPositions
    else if snake1Positions.length > 0 then snake1Positions
    else if snake2Positions.length > 0 then snake2Positions
    else selectedPositions
  else selectedPositions

/-- The weighted apple-type draw of `SpawnApple` in game.go:
60% NORMAL, 15% GOD, 15% SPEED, 5% SLEEP, 5% POISON. -/
def drawAppleType (rng : Nat) : AppleType :=
  let rng := rng % 100
  if rng < 60 then .normal
  else if rng < 75 then .god
  else if rng < 90 then .speed
  else if rng < 95 then .sleep
  else .poison

/-- `SpawnApple` of game.go, with the two `rand.Intn` draws supplied as
parameters (`randomIndex` reduced modulo the candidate count, `rng` modulo
100). Appends one apple in the selected zone, or does nothing when no
candidate cell exists. -/
def GameState.SpawnApple (gs : GameState) (randomIndex rng : Nat) : GameState :=
  let selectedPositions := gs.selectedZonePositions
  if selectedPositions.length > 0 then
    let pos := selectedPositions.getD (randomIndex % selectedPositions.length) ⟨-1, -1⟩
    let appleType := drawAppleType rng
    { gs with apples := gs.apples ++ [⟨pos.x, pos.y, appleType⟩] }
  else gs

/-- `checkGameOver` of game.go. -/
def GameState.checkGameOver (gs : GameState) : GameState :=
  let snake1Alive := gs.snakes.1.alive
  let snake2Alive := gs.snakes.2.alive
  if !snake1Alive && !snake2Alive then
    if gs.snakes.1.length > gs.snakes.2.length then
      { gs with gameOver := true, winner := 1 }
    else if gs.snakes.2.length > gs.snakes.1.length then
      { gs with gameOver := true, winner := 2 }
    else
      { gs with gameOver := true, winner := 0 }
  else if !snake1Alive then { gs with gameOver := true, winner := 2 }
  else if !snake2Alive then { gs with gameOver := true, winner := 1 }
  else gs

/-- The head-to-head resolution block of `ProcessTurn` in game.go: when both
snakes are alive and their heads coincide, the shorter snake dies with reason
"head-to-head" (both on equal length), and the collision flags are updated. -/
def GameState.resolveHeadToHead (gs : GameState) (collision1 collision2 : Bool) :
    GameState × Bool × Bool :=
  if gs.snakes.1.alive && gs.snakes.2.alive then
    let head1 := gs.snakes.1.GetHead
    let head2 := gs.snakes.2.GetHead
    if head1.x == head2.x && head1.y == head2.y then
      if gs.snakes.1.length > gs.snakes.2.length then
        (gs.setSnake 2 { gs.snakes.2 with alive := false, deathReason := "head-to-head" },
         collision1, true)
      else if gs.snakes.2.length > gs.snakes.1.length then
        (gs.setSnake 1 { gs.snakes.1 with alive := false, deathReason := "head-to-head" },
         true, collision2)
      else
        let gs := gs.setSnake 1 { gs.snakes.1 with alive := false, deathReason := "head-to-head" }
        let gs := gs.setSnake 2 { gs.snakes.2 with alive := false, deathReason := "head-to-head" }
        (gs, true, true)
    else (gs, collision1, collision2)
  else (gs, collision1, collision2)

/-- The movement half of one loop iteration of `ProcessTurn` in game.go: each
non-frozen snake with moves remaining this turn advances one cell. -/
def GameState.moveSnakesStep (gs : GameState) (move1 move2 : Direction)
    (movesToMake1 movesToMake2 moveCount : Nat) : GameState :=
  let gs :=
    if gs.snakes.1.sleepTurns ≤ 0 ∧ moveCount < movesToMake1 then
      gs.setSnake 1 (gs.snakes.1.Move move1 false)
    else gs
  if gs.snakes.2.sleepTurns ≤ 0 ∧ moveCount < movesToMake2 then
    gs.setSnake 2 (gs.snakes.2.Move move2 false)
  else gs

/-- One iteration of the movement loop of `ProcessTurn` in game.go: movement,
then the two individual collision checks, then head-to-head resolution.
Returns the state and whether the loop breaks (a collision occurred). -/
def GameState.subStep (gs : GameState) (move1 move2 : Direction)
    (movesToMake1 movesToMake2 moveCount : Nat) : GameState × Bool :=
  let gs := gs.moveSnakesStep move1 move2 movesToMake1 movesToMake2 moveCount
  let r1 := gs.CheckCollision 1
  let r2 := r1.1.CheckCollision 2
  let r3 := r2.1.resolveHeadToHead r1.2 r2.2
  (r3.1, r3.2.1 || r3.2.2)

/-- The movement loop of `ProcessTurn` in game.go, iterated over the listed
`moveCount` values with early exit on collision. -/
def GameState.runSubSteps (gs : GameState) (move1 move2 : Direction)
    (movesToMake1 movesToMake2 : Nat) : List Nat → GameState
  | [] => gs
  | c :: rest =>
    let r := gs.subStep move1 move2 movesToMake1 movesToMake2 c
    if r.2 then r.1
    else r.1.runSubSteps move1 move2 movesToMake1 movesToMake2 rest

/-- The apple-consumption block of `ProcessTurn` in game.go for one snake: a
living snake that eats gets the effect applied and one replacement apple
spawned. Returns the state and the ate-apple flag. -/
def GameState.appleStep (gs : GameState) (snakeID : Nat) (spawnRand : Nat × Nat) :
    GameState × Bool :=
  if (gs.getSnake snakeID).alive then
    let r := gs.CheckAppleEaten snakeID
    match r.2 with
    | some appleType =>
      (((r.1.ApplyAppleEffect snakeID appleType).SpawnApple spawnRand.1 spawnRand.2), true)
    | none => (r.1, false)
  else (gs, false)

/-- The timer-decrement block of `ProcessTurn` in game.go: speed and sleep
counters of both snakes decrement when positive. -/
def GameState.timerStep (gs : GameState) : GameState :=
  let s1 := gs.snakes.1
  let s1 := if s1.speedTurns > 0 then { s1 with speedTurns := s1.speedTurns - 1 } else s1
  let s1 := if s1.sleepTurns > 0 then { s1 with sleepTurns := s1.sleepTurns - 1 } else s1
  let s2 := gs.snakes.2
  let s2 := if s2.speedTurns > 0 then { s2 with speedTurns := s2.speedTurns - 1 } else s2
  let s2 := if s2.sleepTurns > 0 then { s2 with sleepTurns := s2.sleepTurns - 1 } else s2
  { gs with snakes := (s1, s2) }

/-- The energy-depletion block of `ProcessTurn` in game.go for one snake:
a living snake that did not eat loses one energy and dies of hunger at 0. -/
def GameState.energyStep (gs : GameState) (snakeID : Nat) (ateApple : Bool) : GameState :=
  let snake := gs.getSnake snakeID
  if snake.alive && !ateApple then
    let snake := { snake with energy := snake.energy - 1 }
    let snake :=
      if snake.energy ≤ 0 then { snake with alive := false, deathReason := "hunger" }
      else snake
    gs.setSnake snakeID snake
  else gs

/-- `ProcessTurn` of game.go: turn increment, speed-dependent movement loop,
apple consumption and effects (with replacement spawns drawn from `r1`/`r2`),
timer decrements, energy depletion, and the game-over check. -/
def GameState.ProcessTurn (gs : GameState) (move1 move2 : Direction)
    (r1 r2 : Nat × Nat) : GameState :=
  let gs := { gs with turn := gs.turn + 1 }
  let movesToMake1 : Nat := if gs.snakes.1.speedTurns > 0 then 2 else 1
  let movesToMake2 : Nat := if gs.snakes.2.speedTurns > 0 then 2 else 1
  let maxMoves := max movesToMake1 movesToMake2
  let gs := gs.runSubSteps move1 move2 movesToMake1 movesToMake2 (List.range maxMoves)
  let a1 := gs.appleStep 1 r1
  let a2 := a1.1.appleStep 2 r2
  let gs := a2.1.timerStep
  let gs := gs.energyStep 1 a1.2
  let gs := gs.energyStep 2 a2.2
  gs.checkGameOver

/-- `Clone` of game.go: copies every field, but rebuilds a non-nil map from a
struct literal that sets only `Obstacles`, leaving `Width` and `Height` at the
Go zero value 0. -/
def GameState.Clone (gs : GameState) : GameState :=
  { turn := gs.turn
    gridWidth := gs.gridWidth
    gridHeight := gs.gridHeight
    winner := gs.winner
    gameOver := gs.gameOver
    snakes := (gs.snakes.1, gs.snakes.2)
    apples := gs.apples
    map :=
      match gs.map with
      | some m => some { width := 0, height := 0, obstacles := m.obstacles }
      | none => none }

/-! ## Concrete states used as counterexamples and witnesses -/

/-- A living one-segment snake heading up: the shortest body `isNot180` waves
through. -/
def c3Snake : Snake :=
  { id := 1, body := [⟨3, 3⟩], direction := .up, alive := true, length := 1,
    score := 0, speedTurns := 0, sleepTurns := 0, energy := 50, deathReason := "" }

/-- A living two-segment snake heading down. -/
def c3TwoSegSnake : Snake :=
  { id := 1, body := [⟨2, 2⟩, ⟨2, 1⟩], direction := .down, alive := true, length := 2,
    score := 0, speedTurns := 0, sleepTurns := 0, energy := 50, deathReason := "" }

/-! ## Theorems about the claims -/

/-- Claim C3 (counterexample): a living single-segment snake asked for the
direction opposite to its current one does change direction: `Move` accepts the
reversal because `isNot180` waves through any body shorter than two segments. -/
theorem C3_counterexample :
    Direction.down = opposite c3Snake.direction ∧
    (c3Snake.Move .down false).direction ≠ c3Snake.direction := by
  constructor
  · rfl
  · decide

/-- Claim C3 (amended): for a living snake with at least two body segments,
requesting the direction opposite to its current direction via `Move` leaves
the direction unchanged and the snake advances one cell in its current
direction. -/
theorem C3_move_rejects_reversal (s : Snake) (h1 : s.alive = true)
    (h2 : 2 ≤ s.body.length) :
    (s.Move (opposite s.direction) false).direction = s.direction ∧
    (s.Move (opposite s.direction) false).GetHead =
      getNextPosition s.GetHead s.direction := by
  obtain ⟨b0, b1, rest, hb⟩ : ∃ b0 b1 rest, s.body = b0 :: b1 :: rest := by
    match hbody : s.body, h2 with
    | b0 :: b1 :: rest, _ => exact ⟨b0, b1, rest, rfl⟩
  have hnot : s.isNot180 (opposite s.direction) = false := by
    simp [Snake.isNot180, hb]
  simp [Snake.Move, h1, hnot, Snake.GetHead, hb, List.dropLast]

/-- Claim C3 (witness): the amended theorem applied to a concrete two-segment
snake heading down. -/
theorem C3_witness :
    (c3TwoSegSnake.Move (opposite c3TwoSegSnake.direction) false).direction =
      c3TwoSegSnake.direction ∧
    (c3TwoSegSnake.Move (opposite c3TwoSegSnake.direction) false).GetHead =
      getNextPosition c3TwoSegSnake.GetHead c3TwoSegSnake.direction :=
  C3_move_rejects_reversal c3TwoSegSnake (by decide) (by decide)

/-- Claim C7: move-response resolution is the pure two-stage function: a
successful JSON decode supplies the token, otherwise the trimmed line itself is
the token; tokens resolve case-insensitively through the aliases UP/U/W,
DOWN/D/S, LEFT/L/A, RIGHT/R, and every other token resolves to the fixed
default UP. -/
theorem C7_parse_resolution :
    (∀ t line, resolveMoveLine (some t) line = parseMove t) ∧
    (∀ line, resolveMoveLine none line = parseMove (goToUpper line)) ∧
    (∀ s, (goToUpper (goTrimSpace s) = "UP" ∨ goToUpper (goTrimSpace s) = "U" ∨ goToUpper (goTrimSpace s) = "W") →
      parseMove s = .up) ∧
    (∀ s, (goToUpper (goTrimSpace s) = "DOWN" ∨ goToUpper (goTrimSpace s) = "D" ∨ goToUpper (goTrimSpace s) = "S") →
      parseMove s = .down) ∧
    (∀ s, (goToUpper (goTrimSpace s) = "LEFT" ∨ goToUpper (goTrimSpace s) = "L" ∨ goToUpper (goTrimSpace s) = "A") →
      parseMove s = .left) ∧
    (∀ s, (goToUpper (goTrimSpace s) = "RIGHT" ∨ goToUpper (goTrimSpace s) = "R") → parseMove s = .right) ∧
    (∀ s, goToUpper (goTrimSpace s) ∉
        (["UP", "U", "W", "DOWN", "D", "S", "LEFT", "L", "A", "RIGHT", "R"] :
          List String) →
      parseMove s = .up) := by
  refine ⟨fun t line => rfl, fun line => rfl, ?_, ?_, ?_, ?_, ?_⟩
  · rintro s (h | h | h) <;> simp [parseMove, h]
  · rintro s (h | h | h) <;> simp [parseMove, h]
  · rintro s (h | h | h) <;> simp [parseMove, h]
  · rintro s (h | h) <;> simp [parseMove, h]
  · intro s h
    simp only [List.mem_cons, List.not_mem_nil, or_false, not_or] at h
    obtain ⟨h1, h2, h3, h4, h5, h6, h7, h8, h9, h10, h11⟩ := h
    simp [parseMove, h1, h2, h3, h4, h5, h6, h7, h8, h9, h10, h11]

/-- Claim C7 (witness): an unrecognized token resolves to the fixed default UP,
and a lowercase token resolves through its alias. -/
theorem C7_witness :
    parseMove "bogus" = Direction.up ∧ parseMove "right" = Direction.right :=
  ⟨C7_parse_resolution.2.2.2.2.2.2 "bogus" (by decide),
   C7_parse_resolution.2.2.2.2.2.1 "right" (Or.inl (by decide))⟩

/-- Claim C8: `GetMove` returns the requesting agent's own snake's current
direction, looked up by its player slot in the live (non-reordered) state, with
the timeout flag true exactly when the deadline fired, and with timeout false
for the not-running and I/O-error outcomes; the reordered view for bot 2 indeed
has that same snake at slot 0. -/
theorem C8_getmove_fallback (gs : GameState) (ev : MoveEvent) :
    (GetMove gs 1 true .timeout = (gs.snakes.1.direction, true)) ∧
    (GetMove gs 2 true .timeout = (gs.snakes.2.direction, true)) ∧
    (GetMove gs 1 false ev = (gs.snakes.1.direction, false)) ∧
    (GetMove gs 2 false ev = (gs.snakes.2.direction, false)) ∧
    (GetMove gs 1 true .writeErr = (gs.snakes.1.direction, false)) ∧
    (GetMove gs 2 true .writeErr = (gs.snakes.2.direction, false)) ∧
    (GetMove gs 1 true .readFail = (gs.snakes.1.direction, false)) ∧
    (GetMove gs 2 true .readFail = (gs.snakes.2.direction, false)) ∧
    ((stateForBot gs 2).snakes.1 = gs.snakes.2) ∧
    (getDefaultMove gs 2 = gs.snakes.2.direction) := by
  refine ⟨rfl, rfl, rfl, rfl, rfl, rfl, rfl, rfl, rfl, rfl⟩

/-- A state with a non-nil map that carries its grid dimensions, as loaded from
a map file by `NewMatch` in match.go. -/
def c4State : GameState :=
  { turn := 7, gridWidth := 20, gridHeight := 20,
    snakes :=
      ({ id := 1, body := [⟨1, 2⟩, ⟨1, 1⟩], direction := .down, alive := true,
         length := 2, score := 0, speedTurns := 0, sleepTurns := 0, energy := 60,
         deathReason := "" },
       { id := 2, body := [⟨18, 17⟩, ⟨18, 18⟩], direction := .up, alive := true,
         length := 2, score := 0, speedTurns := 0, sleepTurns := 0, energy := 60,
         deathReason := "" }),
    apples := [⟨3, 3, .normal⟩],
    map := some { width := 20, height := 20, obstacles := [⟨4, 4⟩] },
    winner := 0, gameOver := false }

/-- Claim C4: evaluated at a state whose map records width and height 20,
`Clone` rebuilds the map with only its obstacles, zeroing width and height, so
the snapshot is not field-for-field equal to the live state; every other field
is copied faithfully. -/
theorem C4_clone_drops_map_dims :
    c4State.Clone.map = some { width := 0, height := 0, obstacles := [⟨4, 4⟩] } ∧
    c4State.Clone ≠ c4State ∧
    { c4State.Clone with map := c4State.map } = c4State := by
  refine ⟨rfl, by decide, rfl⟩

/-- A state in which both living snakes' heads already coincide and lengths are
equal. -/
def c6State : GameState :=
  { turn := 3, gridWidth := 10, gridHeight := 10,
    snakes :=
      ({ id := 1, body := [⟨5, 5⟩, ⟨4, 5⟩], direction := .right, alive := true,
         length := 2, score := 0, speedTurns := 0, sleepTurns := 0, energy := 40,
         deathReason := "" },
       { id := 2, body := [⟨5, 5⟩, ⟨6, 5⟩], direction := .left, alive := true,
         length := 2, score := 0, speedTurns := 0, sleepTurns := 0, energy := 40,
         deathReason := "" }),
    apples := [], map := none, winner := 0, gameOver := false }

/-- Claim C6: when both living snakes' heads occupy the same cell, the
head-to-head resolution kills the shorter snake with reason "head-to-head" and
leaves the longer untouched; on equal length both die with that reason. -/
theorem C6_head_to_head (gs : GameState) (c1 c2 : Bool)
    (h1 : gs.snakes.1.alive = true) (h2 : gs.snakes.2.alive = true)
    (hh : gs.snakes.1.GetHead = gs.snakes.2.GetHead) :
    (gs.snakes.2.length < gs.snakes.1.length →
      (gs.resolveHeadToHead c1 c2).1.snakes.2.alive = false ∧
      (gs.resolveHeadToHead c1 c2).1.snakes.2.deathReason = "head-to-head" ∧
      (gs.resolveHeadToHead c1 c2).1.snakes.1 = gs.snakes.1 ∧
      (gs.resolveHeadToHead c1 c2).1.snakes.1.alive = true) ∧
    (gs.snakes.1.length < gs.snakes.2.length →
      (gs.resolveHeadToHead c1 c2).1.snakes.1.alive = false ∧
      (gs.resolveHeadToHead c1 c2).1.snakes.1.deathReason = "head-to-head" ∧
      (gs.resolveHeadToHead c1 c2).1.snakes.2 = gs.snakes.2 ∧
      (gs.resolveHeadToHead c1 c2).1.snakes.2.alive = true) ∧
    (gs.snakes.1.length = gs.snakes.2.length →
      (gs.resolveHeadToHead c1 c2).1.snakes.1.alive = false ∧
      (gs.resolveHeadToHead c1 c2).1.snakes.1.deathReason = "head-to-head" ∧
      (gs.resolveHeadToHead c1 c2).1.snakes.2.alive = false ∧
      (gs.resolveHeadToHead c1 c2).1.snakes.2.deathReason = "head-to-head") := by
  have hx : gs.snakes.1.GetHead.x = gs.snakes.2.GetHead.x := by rw [hh]
  have hy : gs.snakes.1.GetHead.y = gs.snakes.2.GetHead.y := by rw [hh]
  refine ⟨fun hlt => ?_, fun hlt => ?_, fun heq => ?_⟩
  · have hgt : gs.snakes.1.length > gs.snakes.2.length := hlt
    simp [GameState.resolveHeadToHead, h1, h2, hx, hy, GameState.setSnake, hgt]
  · have hgt : gs.snakes.2.length > gs.snakes.1.length := hlt
    have hngt : ¬gs.snakes.1.length > gs.snakes.2.length := by omega
    simp [GameState.resolveHeadToHead, h1, h2, hx, hy, GameState.setSnake, hgt, hngt]
  · have hngt1 : ¬gs.snakes.1.length > gs.snakes.2.length := by omega
    have hngt2 : ¬gs.snakes.2.length > gs.snakes.1.length := by omega
    simp [GameState.resolveHeadToHead, h1, h2, hx, hy, GameState.setSnake, hngt1, hngt2]

/-- Claim C6 (witness): equal-length snakes meeting head-on both die with
reason "head-to-head". -/
theorem C6_witness :
    (c6State.resolveHeadToHead false false).1.snakes.1.alive = false ∧
    (c6State.resolveHeadToHead false false).1.snakes.2.alive = false :=
  ⟨((C6_head_to_head c6State false false (by decide) (by decide) (by decide)).2.2
      (by decide)).1,
   ((C6_head_to_head c6State false false (by decide) (by decide) (by decide)).2.2
      (by decide)).2.2.1⟩

/-- An 11-wide, 3-high board with the heads in opposite corners: two apples sit
in snake 1's zone, one in snake 2's zone, none in the neutral band. -/
def c1State : GameState :=
  { turn := 0, gridWidth := 11, gridHeight := 3,
    snakes :=
      ({ id := 1, body := [⟨0, 0⟩], direction := .down, alive := true, length := 1,
         score := 0, speedTurns := 0, sleepTurns := 0, energy := 50, deathReason := "" },
       { id := 2, body := [⟨10, 0⟩], direction := .down, alive := true, length := 1,
         score := 0, speedTurns := 0, sleepTurns := 0, energy := 50, deathReason := "" }),
    apples := [⟨1, 1, .normal⟩, ⟨2, 1, .normal⟩, ⟨8, 1, .normal⟩],
    map := none, winner := 0, gameOver := false }

/-- Claim C1 (counterexample): with zone apple counts (snake1, snake2, neutral)
= (2, 1, 0) the neutral zone holds strictly the fewest apples and has candidate
cells, yet `SpawnApple` selects snake 2's zone: the selection logic never
consults the neutral count. -/
theorem C1_counterexample :
    c1State.zoneAppleCount .neutral = 0 ∧
    c1State.zoneAppleCount .snake1 = 2 ∧
    c1State.zoneAppleCount .snake2 = 1 ∧
    c1State.zonePositions .neutral ≠ [] ∧
    c1State.selectedZonePositions = c1State.zonePositions .snake2 ∧
    c1State.selectedZonePositions ≠ c1State.zonePositions .neutral := by decide

/-- The amended zone-selection rule, stated from the amended claim's words as a
pure function of the two snake-zone apple counts and the three candidate lists:
a snake's zone is chosen exactly when its apple count is strictly below the
other snake's and it has candidates (the neutral count is never consulted),
otherwise neutral; an empty choice falls back in the order neutral, snake1,
snake2. -/
def specZoneSelect (n1 n2 : Nat) (p1 p2 pn : List Position) : List Position :=
  let chosen :=
    if n2 < n1 ∧ p2 ≠ [] then p2
    else if n1 < n2 ∧ p1 ≠ [] then p1
    else pn
  if chosen = [] then
    if pn ≠ [] then pn
    else if p1 ≠ [] then p1
    else p2
  else chosen

/-- Claim C1 (amended): for every state, the candidate list `SpawnApple` draws
from is exactly `specZoneSelect` applied to the two snake-zone apple counts and
the three zone candidate lists — snake-zone counts are compared only with each
other, neutral wins all ties and is the default, and the empty-zone fallback
order is neutral, snake1, snake2. -/
theorem C1_zone_selection (gs : GameState) :
    gs.selectedZonePositions =
      specZoneSelect (gs.zoneAppleCount .snake1) (gs.zoneAppleCount .snake2)
        (gs.zonePositions .snake1) (gs.zonePositions .snake2)
        (gs.zonePositions .neutral) := by
  unfold GameState.selectedZonePositions specZoneSelect
  simp only [Bool.and_eq_true, decide_eq_true_eq, List.length_pos, ne_eq,
    List.length_eq_zero]
  split_ifs <;> simp_all

/-- Every candidate cell of a zone list is unoccupied: the zone lists filter
the grid by the occupied set. -/
lemma zonePositions_unoccupied (gs : GameState) (z : Zone) :
    ∀ p ∈ gs.zonePositions z, gs.occupied p = false := by
  intro p hp
  simp only [GameState.zonePositions, List.mem_filter, Bool.and_eq_true,
    Bool.not_eq_true'] at hp
  exact hp.2.1

/-- The selected candidate list is always one of the three zone lists. -/
lemma selectedZonePositions_eq_zone (gs : GameState) :
    ∃ z, gs.selectedZonePositions = gs.zonePositions z := by
  unfold GameState.selectedZonePositions
  dsimp only
  split_ifs <;> exact ⟨_, rfl⟩

/-- When every grid cell is occupied, every zone candidate list is empty. -/
lemma zonePositions_empty_of_full (gs : GameState)
    (hocc : ∀ p ∈ gs.gridCells, gs.occupied p = true) (z : Zone) :
    gs.zonePositions z = [] := by
  unfold GameState.zonePositions
  rw [List.filter_eq_nil_iff]
  intro p hp
  simp [hocc p hp]

/-- Claim C2: `SpawnApple` only ever adds an apple on a cell that is not
occupied by a snake segment, an obstacle, or an existing apple; and when every
grid cell is occupied it leaves the state unchanged. -/
theorem C2_spawn_safety (gs : GameState) (idx rng : Nat) :
    (∀ a ∈ (gs.SpawnApple idx rng).apples,
      a ∈ gs.apples ∨ gs.occupied ⟨a.x, a.y⟩ = false) ∧
    ((∀ p ∈ gs.gridCells, gs.occupied p = true) → gs.SpawnApple idx rng = gs) := by
  constructor
  · intro a ha
    unfold GameState.SpawnApple at ha
    by_cases hlen : gs.selectedZonePositions.length > 0
    · simp only [hlen, if_pos] at ha
      rcases List.mem_append.mp ha with h | h
      · exact Or.inl h
      · simp only [List.mem_singleton] at h
        subst h
        right
        have hmem : gs.selectedZonePositions.getD
            (idx % gs.selectedZonePositions.length) ⟨-1, -1⟩ ∈
              gs.selectedZonePositions := by
          rw [List.getD_eq_getElem _ _ (Nat.mod_lt _ hlen)]
          exact List.getElem_mem _
        obtain ⟨z, hz⟩ := selectedZonePositions_eq_zone gs
        show gs.occupied
          (gs.selectedZonePositions.getD
            (idx % gs.selectedZonePositions.length) ⟨-1, -1⟩) = false
        exact zonePositions_unoccupied gs z _ (hz ▸ hmem)
    · simp only [hlen, if_neg] at ha
      exact Or.inl ha
  · intro hocc
    obtain ⟨z, hz⟩ := selectedZonePositions_eq_zone gs
    unfold GameState.SpawnApple
    rw [hz, zonePositions_empty_of_full gs hocc z]
    simp

/-- A fully occupied 1-by-1 board: the lone cell holds snake 1's body. -/
def c2FullState : GameState :=
  { turn := 0, gridWidth := 1, gridHeight := 1,
    snakes :=
      ({ id := 1, body := [⟨0, 0⟩], direction := .down, alive := true, length := 1,
         score := 0, speedTurns := 0, sleepTurns := 0, energy := 50, deathReason := "" },
       { id := 2, body := [], direction := .up, alive := false, length := 0,
         score := 0, speedTurns := 0, sleepTurns := 0, energy := 0,
         deathReason := "wall" }),
    apples := [], map := none, winner := 0, gameOver := false }

/-- Claim C2 (witness): on a fully occupied board, spawning is a no-op. -/
theorem C2_witness : c2FullState.SpawnApple 0 0 = c2FullState :=
  (C2_spawn_safety c2FullState 0 0).2 (by decide)

/-- A dead snake is unchanged by `Move`. -/
lemma Move_dead (s : Snake) (h : s.alive = false) (d : Direction) (g : Bool) :
    s.Move d g = s := by
  simp [Snake.Move, h]

lemma setSnake1_snakes (gs : GameState) (s : Snake) :
    (gs.setSnake 1 s).snakes = (s, gs.snakes.2) := by
  simp [GameState.setSnake]

lemma setSnake2_snakes (gs : GameState) (s : Snake) :
    (gs.setSnake 2 s).snakes = (gs.snakes.1, s) := by
  simp [GameState.setSnake]

lemma moveSnakesStep_dead1 (gs : GameState) (h : gs.snakes.1.alive = false)
    (move1 move2 : Direction) (m1 m2 c : Nat) :
    (gs.moveSnakesStep move1 move2 m1 m2 c).snakes.1 = gs.snakes.1 := by
  unfold GameState.moveSnakesStep
  have h1 : (if gs.snakes.1.sleepTurns ≤ 0 ∧ c < m1 then
      gs.setSnake 1 (gs.snakes.1.Move move1 false) else gs) = gs := by
    split
    · rw [Move_dead _ h]
      simp [GameState.setSnake]
    · rfl
  dsimp only
  rw [h1]
  split
  · rw [setSnake2_snakes]
  · rfl

lemma CheckCollision_dead (gs : GameState) (i : Nat) (h : (gs.getSnake i).alive = false) :
    gs.CheckCollision i = (gs, false) := by
  unfold GameState.CheckCollision
  simp [h]

/-- `CheckCollision` either leaves the state unchanged or kills its own snake. -/
lemma CheckCollision_cases (gs : GameState) (i : Nat) :
    (gs.CheckCollision i).1 = gs ∨ ∃ s, (gs.CheckCollision i).1 = gs.setSnake i s := by
  unfold GameState.CheckCollision
  rcases hm : gs.map with _ | m <;> dsimp only <;> split_ifs <;>
    first
      | exact Or.inl rfl
      | exact Or.inr ⟨_, rfl⟩

lemma CheckCollision2_snakes1 (gs : GameState) :
    ((gs.CheckCollision 2).1).snakes.1 = gs.snakes.1 := by
  rcases CheckCollision_cases gs 2 with h | ⟨s, h⟩ <;> rw [h]
  simp [GameState.setSnake]

lemma CheckCollision1_snakes2 (gs : GameState) :
    ((gs.CheckCollision 1).1).snakes.2 = gs.snakes.2 := by
  rcases CheckCollision_cases gs 1 with h | ⟨s, h⟩ <;> rw [h]
  simp [GameState.setSnake]

lemma resolveHeadToHead_dead1 (gs : GameState) (c1 c2 : Bool)
    (h : gs.snakes.1.alive = false) :
    gs.resolveHeadToHead c1 c2 = (gs, c1, c2) := by
  unfold GameState.resolveHeadToHead
  simp [h]

lemma subStep_dead1 (gs : GameState) (h : gs.snakes.1.alive = false)
    (move1 move2 : Direction) (m1 m2 c : Nat) :
    ((gs.subStep move1 move2 m1 m2 c).1).snakes.1 = gs.snakes.1 := by
  unfold GameState.subStep
  dsimp only
  have h0 : (gs.moveSnakesStep move1 move2 m1 m2 c).snakes.1 = gs.snakes.1 :=
    moveSnakesStep_dead1 gs h move1 move2 m1 m2 c
  rw [CheckCollision_dead _ 1 (by simpa [GameState.getSnake] using h0 ▸ h)]
  have h2 := CheckCollision2_snakes1 (gs.moveSnakesStep move1 move2 m1 m2 c)
  rw [resolveHeadToHead_dead1 _ _ _ (by rw [h2, h0]; exact h)]
  rw [h2, h0]

lemma runSubSteps_dead1 (gs : GameState) (h : gs.snakes.1.alive = false)
    (move1 move2 : Direction) (m1 m2 : Nat) (counts : List Nat) :
    (gs.runSubSteps move1 move2 m1 m2 counts).snakes.1 = gs.snakes.1 := by
  induction counts generalizing gs with
  | nil => rfl
  | cons c rest ih =>
    unfold GameState.runSubSteps
    dsimp only
    split
    · exact subStep_dead1 gs h move1 move2 m1 m2 c
    · rw [ih _ (by rw [subStep_dead1 gs h]; exact h)]
      exact subStep_dead1 gs h move1 move2 m1 m2 c

lemma CheckAppleEaten_snakes (gs : GameState) (i : Nat) :
    ((gs.CheckAppleEaten i).1).snakes = gs.snakes := by
  unfold GameState.CheckAppleEaten
  dsimp only
  split <;> rfl

lemma SpawnApple_snakes (gs : GameState) (i r : Nat) :
    (gs.SpawnApple i r).snakes = gs.snakes := by
  unfold GameState.SpawnApple
  dsimp only
  split <;> rfl

lemma ApplyAppleEffect2_snakes1 (gs : GameState) (t : AppleType) :
    (gs.ApplyAppleEffect 2 t).snakes.1 = gs.snakes.1 ∨
    (gs.ApplyAppleEffect 2 t).snakes.1 = { gs.snakes.1 with sleepTurns := 5 } := by
  unfold GameState.ApplyAppleEffect
  cases t <;> dsimp only <;>
    simp [GameState.setSnake, GameState.getSnake]

lemma appleStep1_dead (gs : GameState) (r : Nat × Nat) (h : gs.snakes.1.alive = false) :
    gs.appleStep 1 r = (gs, false) := by
  unfold GameState.appleStep
  simp [GameState.getSnake, h]

lemma appleStep2_snakes1 (gs : GameState) (r : Nat × Nat) :
    ((gs.appleStep 2 r).1).snakes.1 = gs.snakes.1 ∨
    ((gs.appleStep 2 r).1).snakes.1 = { gs.snakes.1 with sleepTurns := 5 } := by
  unfold GameState.appleStep
  dsimp only
  split
  · split
    · rename_i t heq
      rw [SpawnApple_snakes]
      have hc : ((gs.CheckAppleEaten 2).1).snakes = gs.snakes := CheckAppleEaten_snakes gs 2
      rcases ApplyAppleEffect2_snakes1 (gs.CheckAppleEaten 2).1 t with h | h <;>
        rw [h, hc]
      · exact Or.inl rfl
      · exact Or.inr rfl
    · rw [CheckAppleEaten_snakes]
      exact Or.inl rfl
  · exact Or.inl rfl

lemma timerStep_snakes1 (gs : GameState) :
    (gs.timerStep).snakes.1 =
      (let s1 := gs.snakes.1
       let s1 := if s1.speedTurns > 0 then { s1 with speedTurns := s1.speedTurns - 1 } else s1
       if s1.sleepTurns > 0 then { s1 with sleepTurns := s1.sleepTurns - 1 } else s1) := by
  unfold GameState.timerStep
  dsimp only

lemma energyStep_dead (gs : GameState) (i : Nat) (ate : Bool)
    (h : (gs.getSnake i).alive = false) :
    gs.energyStep i ate = gs := by
  unfold GameState.energyStep
  simp [h]

lemma energyStep2_snakes1 (gs : GameState) (ate : Bool) :
    (gs.energyStep 2 ate).snakes.1 = gs.snakes.1 := by
  unfold GameState.energyStep
  dsimp only
  split
  · rw [setSnake2_snakes]
  · rfl

lemma checkGameOver_snakes (gs : GameState) :
    (gs.checkGameOver).snakes = gs.snakes := by
  unfold GameState.checkGameOver
  dsimp only
  split_ifs <;> rfl

lemma timerStep_fields1 (gs : GameState) :
    (gs.timerStep).snakes.1.body = gs.snakes.1.body ∧
    (gs.timerStep).snakes.1.direction = gs.snakes.1.direction ∧
    (gs.timerStep).snakes.1.length = gs.snakes.1.length ∧
    (gs.timerStep).snakes.1.score = gs.snakes.1.score ∧
    (gs.timerStep).snakes.1.energy = gs.snakes.1.energy ∧
    (gs.timerStep).snakes.1.alive = gs.snakes.1.alive ∧
    (gs.timerStep).snakes.1.deathReason = gs.snakes.1.deathReason ∧
    (gs.timerStep).snakes.1.speedTurns =
      (if gs.snakes.1.speedTurns > 0 then gs.snakes.1.speedTurns - 1
       else gs.snakes.1.speedTurns) ∧
    (gs.timerStep).snakes.1.sleepTurns =
      (if gs.snakes.1.sleepTurns > 0 then gs.snakes.1.sleepTurns - 1
       else gs.snakes.1.sleepTurns) := by
  unfold GameState.timerStep
  dsimp only
  split_ifs <;> simp_all

lemma afterLoop_dead1 (gs : GameState) (r1 r2 : Nat × Nat)
    (h : gs.snakes.1.alive = false) :
    let a1 := gs.appleStep 1 r1
    let a2 := a1.1.appleStep 2 r2
    let res := ((a2.1.timerStep.energyStep 1 a1.2).energyStep 2 a2.2).checkGameOver
    res.snakes.1.body = gs.snakes.1.body ∧
    res.snakes.1.direction = gs.snakes.1.direction ∧
    res.snakes.1.length = gs.snakes.1.length ∧
    res.snakes.1.score = gs.snakes.1.score ∧
    res.snakes.1.energy = gs.snakes.1.energy ∧
    res.snakes.1.alive = false ∧
    res.snakes.1.deathReason = gs.snakes.1.deathReason ∧
    res.snakes.1.speedTurns =
      (if gs.snakes.1.speedTurns > 0 then gs.snakes.1.speedTurns - 1
       else gs.snakes.1.speedTurns) ∧
    (res.snakes.1.sleepTurns =
       (if gs.snakes.1.sleepTurns > 0 then gs.snakes.1.sleepTurns - 1
        else gs.snakes.1.sleepTurns) ∨
     res.snakes.1.sleepTurns = 4) := by
  rw [appleStep1_dead gs r1 h]
  dsimp only
  have halive : ((gs.appleStep 2 r2).1).snakes.1.alive = false := by
    rcases appleStep2_snakes1 gs r2 with hX | hX <;> rw [hX] <;> exact h
  have hEN1 : (((gs.appleStep 2 r2).1.timerStep).energyStep 1 false) =
      ((gs.appleStep 2 r2).1.timerStep) := by
    apply energyStep_dead
    show ((gs.appleStep 2 r2).1.timerStep).snakes.1.alive = false
    rw [(timerStep_fields1 _).2.2.2.2.2.1]
    exact halive
  rw [hEN1]
  have hres :
      (((((gs.appleStep 2 r2).1.timerStep).energyStep 2
        ((gs.appleStep 2 r2).2)).checkGameOver)).snakes.1 =
      ((gs.appleStep 2 r2).1.timerStep).snakes.1 := by
    rw [checkGameOver_snakes, energyStep2_snakes1]
  obtain ⟨htb, htd, htl, hts, hte, hta, htr, htsp, htsl⟩ :=
    timerStep_fields1 ((gs.appleStep 2 r2).1)
  rcases appleStep2_snakes1 gs r2 with hX | hX
  · exact ⟨by rw [hres, htb, hX], by rw [hres, htd, hX], by rw [hres, htl, hX],
      by rw [hres, hts, hX], by rw [hres, hte, hX],
      by rw [hres, hta, hX]; exact h,
      by rw [hres, htr, hX], by rw [hres, htsp, hX],
      Or.inl (by rw [hres, htsl, hX])⟩
  · exact ⟨by rw [hres, htb, hX], by rw [hres, htd, hX], by rw [hres, htl, hX],
      by rw [hres, hts, hX], by rw [hres, hte, hX],
      by rw [hres, hta, hX]; exact h,
      by rw [hres, htr, hX], by rw [hres, htsp, hX],
      Or.inr (by rw [hres, htsl, hX]; norm_num)⟩

lemma moveSnakesStep_dead2 (gs : GameState) (h : gs.snakes.2.alive = false)
    (move1 move2 : Direction) (m1 m2 c : Nat) :
    (gs.moveSnakesStep move1 move2 m1 m2 c).snakes.2 = gs.snakes.2 := by
  unfold GameState.moveSnakesStep
  dsimp only
  have h1 : ∀ g1 : GameState, g1.snakes.2 = gs.snakes.2 →
      (if g1.snakes.2.sleepTurns ≤ 0 ∧ c < m2 then
        g1.setSnake 2 (g1.snakes.2.Move move2 false) else g1).snakes.2 = gs.snakes.2 := by
    intro g1 hg1
    split
    · rw [setSnake2_snakes, hg1, Move_dead _ h]
    · exact hg1
  apply h1
  split
  · rw [setSnake1_snakes]
  · rfl

lemma resolveHeadToHead_dead2 (gs : GameState) (c1 c2 : Bool)
    (h : gs.snakes.2.alive = false) :
    gs.resolveHeadToHead c1 c2 = (gs, c1, c2) := by
  unfold GameState.resolveHeadToHead
  simp [h]

lemma subStep_dead2 (gs : GameState) (h : gs.snakes.2.alive = false)
    (move1 move2 : Direction) (m1 m2 c : Nat) :
    ((gs.subStep move1 move2 m1 m2 c).1).snakes.2 = gs.snakes.2 := by
  unfold GameState.subStep
  dsimp only
  have h0 : (gs.moveSnakesStep move1 move2 m1 m2 c).snakes.2 = gs.snakes.2 :=
    moveSnakesStep_dead2 gs h move1 move2 m1 m2 c
  have h1 := CheckCollision1_snakes2 (gs.moveSnakesStep move1 move2 m1 m2 c)
  rw [CheckCollision_dead _ 2 (by simp only [GameState.getSnake] at *; rw [h1, h0]; exact h)]
  rw [resolveHeadToHead_dead2 _ _ _ (by rw [h1, h0]; exact h)]
  rw [h1, h0]

lemma runSubSteps_dead2 (gs : GameState) (h : gs.snakes.2.alive = false)
    (move1 move2 : Direction) (m1 m2 : Nat) (counts : List Nat) :
    (gs.runSubSteps move1 move2 m1 m2 counts).snakes.2 = gs.snakes.2 := by
  induction counts generalizing gs with
  | nil => rfl
  | cons c rest ih =>
    unfold GameState.runSubSteps
    dsimp only
    split
    · exact subStep_dead2 gs h move1 move2 m1 m2 c
    · rw [ih _ (by rw [subStep_dead2 gs h]; exact h)]
      exact subStep_dead2 gs h move1 move2 m1 m2 c

lemma ApplyAppleEffect1_snakes2 (gs : GameState) (t : AppleType) :
    (gs.ApplyAppleEffect 1 t).snakes.2 = gs.snakes.2 ∨
    (gs.ApplyAppleEffect 1 t).snakes.2 = { gs.snakes.2 with sleepTurns := 5 } := by
  unfold GameState.ApplyAppleEffect
  cases t <;> dsimp only <;>
    simp [GameState.setSnake, GameState.getSnake]

lemma appleStep2_dead (gs : GameState) (r : Nat × Nat) (h : gs.snakes.2.alive = false) :
    gs.appleStep 2 r = (gs, false) := by
  unfold GameState.appleStep
  simp [GameState.getSnake, h]

lemma appleStep1_snakes2 (gs : GameState) (r : Nat × Nat) :
    ((gs.appleStep 1 r).1).snakes.2 = gs.snakes.2 ∨
    ((gs.appleStep 1 r).1).snakes.2 = { gs.snakes.2 with sleepTurns := 5 } := by
  unfold GameState.appleStep
  dsimp only
  split
  · split
    · rename_i t heq
      rw [SpawnApple_snakes]
      have hc : ((gs.CheckAppleEaten 1).1).snakes = gs.snakes := CheckAppleEaten_snakes gs 1
      rcases ApplyAppleEffect1_snakes2 (gs.CheckAppleEaten 1).1 t with h | h <;>
        rw [h, hc]
      · exact Or.inl rfl
      · exact Or.inr rfl
    · rw [CheckAppleEaten_snakes]
      exact Or.inl rfl
  · exact Or.inl rfl

lemma timerStep_fields2 (gs : GameState) :
    (gs.timerStep).snakes.2.body = gs.snakes.2.body ∧
    (gs.timerStep).snakes.2.direction = gs.snakes.2.direction ∧
    (gs.timerStep).snakes.2.length = gs.snakes.2.length ∧
    (gs.timerStep).snakes.2.score = gs.snakes.2.score ∧
    (gs.timerStep).snakes.2.energy = gs.snakes.2.energy ∧
    (gs.timerStep).snakes.2.alive = gs.snakes.2.alive ∧
    (gs.timerStep).snakes.2.deathReason = gs.snakes.2.deathReason ∧
    (gs.timerStep).snakes.2.speedTurns =
      (if gs.snakes.2.speedTurns > 0 then gs.snakes.2.speedTurns - 1
       else gs.snakes.2.speedTurns) ∧
    (gs.timerStep).snakes.2.sleepTurns =
      (if gs.snakes.2.sleepTurns > 0 then gs.snakes.2.sleepTurns - 1
       else gs.snakes.2.sleepTurns) := by
  unfold GameState.timerStep
  dsimp only
  split_ifs <;> simp_all

lemma energyStep1_snakes2 (gs : GameState) (ate : Bool) :
    (gs.energyStep 1 ate).snakes.2 = gs.snakes.2 := by
  unfold GameState.energyStep
  dsimp only
  split
  · rw [setSnake1_snakes]
  · rfl

lemma afterLoop_dead2 (gs : GameState) (r1 r2 : Nat × Nat)
    (h : gs.snakes.2.alive = false) :
    let a1 := gs.appleStep 1 r1
    let a2 := a1.1.appleStep 2 r2
    let res := ((a2.1.timerStep.energyStep 1 a1.2).energyStep 2 a2.2).checkGameOver
    res.snakes.2.body = gs.snakes.2.body ∧
    res.snakes.2.direction = gs.snakes.2.direction ∧
    res.snakes.2.length = gs.snakes.2.length ∧
    res.snakes.2.score = gs.snakes.2.score ∧
    res.snakes.2.energy = gs.snakes.2.energy ∧
    res.snakes.2.alive = false ∧
    res.snakes.2.deathReason = gs.snakes.2.deathReason ∧
    res.snakes.2.speedTurns =
      (if gs.snakes.2.speedTurns > 0 then gs.snakes.2.speedTurns - 1
       else gs.snakes.2.speedTurns) ∧
    (res.snakes.2.sleepTurns =
       (if gs.snakes.2.sleepTurns > 0 then gs.snakes.2.sleepTurns - 1
        else gs.snakes.2.sleepTurns) ∨
     res.snakes.2.sleepTurns = 4) := by
  dsimp only
  have h2 : ((gs.appleStep 1 r1).1).snakes.2.alive = false := by
    rcases appleStep1_snakes2 gs r1 with hX | hX <;> rw [hX] <;> exact h
  rw [appleStep2_dead _ r2 h2]
  dsimp only
  have hEN2 : ∀ g1 : GameState, g1.snakes.2.alive = false →
      g1.energyStep 2 false = g1 := by
    intro g1 hg1
    apply energyStep_dead
    show g1.snakes.2.alive = false
    exact hg1
  obtain ⟨htb, htd, htl, hts, hte, hta, htr, htsp, htsl⟩ :=
    timerStep_fields2 ((gs.appleStep 1 r1).1)
  have hTdead : (((gs.appleStep 1 r1).1).timerStep).snakes.2.alive = false := by
    rw [hta]; exact h2
  have hEN1s2 := energyStep1_snakes2 (((gs.appleStep 1 r1).1).timerStep) ((gs.appleStep 1 r1).2)
  rw [hEN2 _ (by rw [hEN1s2]; exact hTdead)]
  have hres :
      ((((gs.appleStep 1 r1).1.timerStep).energyStep 1
        ((gs.appleStep 1 r1).2)).checkGameOver).snakes.2 =
      ((gs.appleStep 1 r1).1.timerStep).snakes.2 := by
    rw [checkGameOver_snakes, hEN1s2]
  rcases appleStep1_snakes2 gs r1 with hX | hX
  · exact ⟨by rw [hres, htb, hX], by rw [hres, htd, hX], by rw [hres, htl, hX],
      by rw [hres, hts, hX], by rw [hres, hte, hX],
      by rw [hres, hta, hX]; exact h,
      by rw [hres, htr, hX], by rw [hres, htsp, hX],
      Or.inl (by rw [hres, htsl, hX])⟩
  · exact ⟨by rw [hres, htb, hX], by rw [hres, htd, hX], by rw [hres, htl, hX],
      by rw [hres, hts, hX], by rw [hres, hte, hX],
      by rw [hres, hta, hX]; exact h,
      by rw [hres, htr, hX], by rw [hres, htsp, hX],
      Or.inr (by rw [hres, htsl, hX]; norm_num)⟩

/-- Claim C10 (amended): a snake already dead when `ProcessTurn` begins keeps
its body, direction, length, score, energy, alive flag, and death reason
unchanged; its speed counter decrements by one when positive, and its sleep
counter either decrements by one when positive (and is otherwise unchanged) or
ends at 4 — the latter exactly when the living opponent eats a SLEEP apple this
turn, which sets the dead snake's sleep counter to 5 before the decrement. -/
theorem C10_dead_snake_frame (gs : GameState) (move1 move2 : Direction) (r1 r2 : Nat × Nat) :
    (gs.snakes.1.alive = false →
      (gs.ProcessTurn move1 move2 r1 r2).snakes.1.body = gs.snakes.1.body ∧
      (gs.ProcessTurn move1 move2 r1 r2).snakes.1.direction = gs.snakes.1.direction ∧
      (gs.ProcessTurn move1 move2 r1 r2).snakes.1.length = gs.snakes.1.length ∧
      (gs.ProcessTurn move1 move2 r1 r2).snakes.1.score = gs.snakes.1.score ∧
      (gs.ProcessTurn move1 move2 r1 r2).snakes.1.energy = gs.snakes.1.energy ∧
      (gs.ProcessTurn move1 move2 r1 r2).snakes.1.alive = false ∧
      (gs.ProcessTurn move1 move2 r1 r2).snakes.1.deathReason = gs.snakes.1.deathReason ∧
      (gs.ProcessTurn move1 move2 r1 r2).snakes.1.speedTurns =
        (if gs.snakes.1.speedTurns > 0 then gs.snakes.1.speedTurns - 1
         else gs.snakes.1.speedTurns) ∧
      ((gs.ProcessTurn move1 move2 r1 r2).snakes.1.sleepTurns =
         (if gs.snakes.1.sleepTurns > 0 then gs.snakes.1.sleepTurns - 1
          else gs.snakes.1.sleepTurns) ∨
       (gs.ProcessTurn move1 move2 r1 r2).snakes.1.sleepTurns = 4)) ∧
    (gs.snakes.2.alive = false →
      (gs.ProcessTurn move1 move2 r1 r2).snakes.2.body = gs.snakes.2.body ∧
      (gs.ProcessTurn move1 move2 r1 r2).snakes.2.direction = gs.snakes.2.direction ∧
      (gs.ProcessTurn move1 move2 r1 r2).snakes.2.length = gs.snakes.2.length ∧
      (gs.ProcessTurn move1 move2 r1 r2).snakes.2.score = gs.snakes.2.score ∧
      (gs.ProcessTurn move1 move2 r1 r2).snakes.2.energy = gs.snakes.2.energy ∧
      (gs.ProcessTurn move1 move2 r1 r2).snakes.2.alive = false ∧
      (gs.ProcessTurn move1 move2 r1 r2).snakes.2.deathReason = gs.snakes.2.deathReason ∧
      (gs.ProcessTurn move1 move2 r1 r2).snakes.2.speedTurns =
        (if gs.snakes.2.speedTurns > 0 then gs.snakes.2.speedTurns - 1
         else gs.snakes.2.speedTurns) ∧
      ((gs.ProcessTurn move1 move2 r1 r2).snakes.2.sleepTurns =
         (if gs.snakes.2.sleepTurns > 0 then gs.snakes.2.sleepTurns - 1
          else gs.snakes.2.sleepTurns) ∨
       (gs.ProcessTurn move1 move2 r1 r2).snakes.2.sleepTurns = 4)) := by
  constructor
  · intro h
    unfold GameState.ProcessTurn
    dsimp only
    have hL := runSubSteps_dead1 { gs with turn := gs.turn + 1 } h move1 move2
      (if gs.snakes.1.speedTurns > 0 then 2 else 1)
      (if gs.snakes.2.speedTurns > 0 then 2 else 1)
      (List.range (max (if gs.snakes.1.speedTurns > 0 then 2 else 1)
        (if gs.snakes.2.speedTurns > 0 then 2 else 1)))
    have key := afterLoop_dead1 _ r1 r2 (by rw [hL]; exact h)
    rw [hL] at key
    exact key
  · intro h
    unfold GameState.ProcessTurn
    dsimp only
    have hL := runSubSteps_dead2 { gs with turn := gs.turn + 1 } h move1 move2
      (if gs.snakes.1.speedTurns > 0 then 2 else 1)
      (if gs.snakes.2.speedTurns > 0 then 2 else 1)
      (List.range (max (if gs.snakes.1.speedTurns > 0 then 2 else 1)
        (if gs.snakes.2.speedTurns > 0 then 2 else 1)))
    have key := afterLoop_dead2 _ r1 r2 (by rw [hL]; exact h)
    rw [hL] at key
    exact key

/-- A state with snake 1 dead (sleep counter 0) and living snake 2 one cell
below a SLEEP apple. -/
def c10State : GameState :=
  { turn := 0, gridWidth := 10, gridHeight := 10,
    snakes :=
      ({ id := 1, body := [⟨0, 0⟩], direction := .down, alive := false, length := 1,
         score := 0, speedTurns := 0, sleepTurns := 0, energy := 10,
         deathReason := "wall" },
       { id := 2, body := [⟨5, 5⟩, ⟨5, 6⟩], direction := .up, alive := true, length := 2,
         score := 0, speedTurns := 0, sleepTurns := 0, energy := 50,
         deathReason := "" }),
    apples := [⟨5, 4, .sleep⟩], map := none, winner := 0, gameOver := false }

/-- Claim C10 (counterexample): with snake 1 dead and its sleep counter 0, a
turn in which snake 2 eats a SLEEP apple ends with the dead snake's sleep
counter at 4 — not merely "decrementing by one when positive" as the claim
states. -/
theorem C10_counterexample :
    c10State.snakes.1.alive = false ∧
    c10State.snakes.1.sleepTurns = 0 ∧
    (c10State.ProcessTurn .down .up (0, 0) (0, 0)).snakes.1.sleepTurns = 4 := by decide

/-- A state with snake 1 dead and no apples anywhere. -/
def c10FrameState : GameState :=
  { turn := 2, gridWidth := 8, gridHeight := 8,
    snakes :=
      ({ id := 1, body := [⟨1, 1⟩, ⟨1, 2⟩], direction := .up, alive := false, length := 2,
         score := 3, speedTurns := 2, sleepTurns := 0, energy := 17,
         deathReason := "self" },
       { id := 2, body := [⟨6, 6⟩, ⟨6, 7⟩], direction := .up, alive := true, length := 2,
         score := 0, speedTurns := 0, sleepTurns := 0, energy := 50,
         deathReason := "" }),
    apples := [], map := none, winner := 0, gameOver := false }

/-- Claim C10 (witness): the amended frame theorem applied to a concrete
state with snake 1 dead. -/
theorem C10_witness :
    (c10FrameState.ProcessTurn .up .up (0, 0) (0, 0)).snakes.1.body =
      c10FrameState.snakes.1.body ∧
    (c10FrameState.ProcessTurn .up .up (0, 0) (0, 0)).snakes.1.score =
      c10FrameState.snakes.1.score :=
  ⟨((C10_dead_snake_frame c10FrameState .up .up (0, 0) (0, 0)).1 (by decide)).1,
   ((C10_dead_snake_frame c10FrameState .up .up (0, 0) (0, 0)).1 (by decide)).2.2.2.1⟩

lemma Move_lengths (s : Snake) (d : Direction) :
    (s.Move d false).body.length = s.body.length ∧ (s.Move d false).length = s.length := by
  unfold Snake.Move
  dsimp only
  split
  · exact ⟨rfl, rfl⟩
  · split_ifs <;> simp_all [List.length_dropLast]

lemma moveSnakesStep_lengths (gs : GameState) (move1 move2 : Direction) (m1 m2 c : Nat) :
    (gs.moveSnakesStep move1 move2 m1 m2 c).snakes.1.body.length = gs.snakes.1.body.length ∧
    (gs.moveSnakesStep move1 move2 m1 m2 c).snakes.1.length = gs.snakes.1.length ∧
    (gs.moveSnakesStep move1 move2 m1 m2 c).snakes.2.body.length = gs.snakes.2.body.length ∧
    (gs.moveSnakesStep move1 move2 m1 m2 c).snakes.2.length = gs.snakes.2.length := by
  unfold GameState.moveSnakesStep
  dsimp only
  split <;> split <;>
    simp [GameState.setSnake, Move_lengths]

lemma CheckCollision_kill_cases (gs : GameState) (i : Nat) :
    (gs.CheckCollision i).1 = gs ∨
    ∃ r, (gs.CheckCollision i).1 =
      gs.setSnake i { gs.getSnake i with alive := false, deathReason := r } := by
  unfold GameState.CheckCollision
  rcases hm : gs.map with _ | m <;> dsimp only <;> split_ifs <;>
    first
      | exact Or.inl rfl
      | exact Or.inr ⟨_, rfl⟩

lemma CheckCollision_core (gs : GameState) (i : Nat) :
    (gs.CheckCollision i).1.snakes.1.body = gs.snakes.1.body ∧
    (gs.CheckCollision i).1.snakes.1.length = gs.snakes.1.length ∧
    (gs.CheckCollision i).1.snakes.1.direction = gs.snakes.1.direction ∧
    (gs.CheckCollision i).1.snakes.1.sleepTurns = gs.snakes.1.sleepTurns ∧
    (gs.CheckCollision i).1.snakes.1.speedTurns = gs.snakes.1.speedTurns ∧
    (gs.CheckCollision i).1.snakes.2.body = gs.snakes.2.body ∧
    (gs.CheckCollision i).1.snakes.2.length = gs.snakes.2.length ∧
    (gs.CheckCollision i).1.snakes.2.direction = gs.snakes.2.direction ∧
    (gs.CheckCollision i).1.snakes.2.sleepTurns = gs.snakes.2.sleepTurns ∧
    (gs.CheckCollision i).1.snakes.2.speedTurns = gs.snakes.2.speedTurns := by
  rcases CheckCollision_kill_cases gs i with h | ⟨r, h⟩ <;> rw [h]
  · exact ⟨rfl, rfl, rfl, rfl, rfl, rfl, rfl, rfl, rfl, rfl⟩
  · by_cases hi : i = 1 <;> simp [GameState.setSnake, GameState.getSnake, hi]

lemma resolveHeadToHead_core (gs : GameState) (c1 c2 : Bool) :
    (gs.resolveHeadToHead c1 c2).1.snakes.1.body = gs.snakes.1.body ∧
    (gs.resolveHeadToHead c1 c2).1.snakes.1.length = gs.snakes.1.length ∧
    (gs.resolveHeadToHead c1 c2).1.snakes.1.direction = gs.snakes.1.direction ∧
    (gs.resolveHeadToHead c1 c2).1.snakes.1.sleepTurns = gs.snakes.1.sleepTurns ∧
    (gs.resolveHeadToHead c1 c2).1.snakes.1.speedTurns = gs.snakes.1.speedTurns ∧
    (gs.resolveHeadToHead c1 c2).1.snakes.2.body = gs.snakes.2.body ∧
    (gs.resolveHeadToHead c1 c2).1.snakes.2.length = gs.snakes.2.length ∧
    (gs.resolveHeadToHead c1 c2).1.snakes.2.direction = gs.snakes.2.direction ∧
    (gs.resolveHeadToHead c1 c2).1.snakes.2.sleepTurns = gs.snakes.2.sleepTurns ∧
    (gs.resolveHeadToHead c1 c2).1.snakes.2.speedTurns = gs.snakes.2.speedTurns := by
  unfold GameState.resolveHeadToHead
  dsimp only
  split_ifs <;> simp [GameState.setSnake]

lemma subStep_lengths (gs : GameState) (move1 move2 : Direction) (m1 m2 c : Nat) :
    ((gs.subStep move1 move2 m1 m2 c).1).snakes.1.body.length = gs.snakes.1.body.length ∧
    ((gs.subStep move1 move2 m1 m2 c).1).snakes.1.length = gs.snakes.1.length ∧
    ((gs.subStep move1 move2 m1 m2 c).1).snakes.2.body.length = gs.snakes.2.body.length ∧
    ((gs.subStep move1 move2 m1 m2 c).1).snakes.2.length = gs.snakes.2.length := by
  unfold GameState.subStep
  dsimp only
  obtain ⟨m1b, m1l, m2b, m2l⟩ := moveSnakesStep_lengths gs move1 move2 m1 m2 c
  obtain ⟨c1b, c1l, _, _, _, c2b, c2l, _, _, _⟩ :=
    CheckCollision_core (gs.moveSnakesStep move1 move2 m1 m2 c) 1
  obtain ⟨d1b, d1l, _, _, _, d2b, d2l, _, _, _⟩ :=
    CheckCollision_core ((gs.moveSnakesStep move1 move2 m1 m2 c).CheckCollision 1).1 2
  obtain ⟨e1b, e1l, _, _, _, e2b, e2l, _, _, _⟩ :=
    resolveHeadToHead_core
      (((gs.moveSnakesStep move1 move2 m1 m2 c).CheckCollision 1).1.CheckCollision 2).1
      ((gs.moveSnakesStep move1 move2 m1 m2 c).CheckCollision 1).2
      (((gs.moveSnakesStep move1 move2 m1 m2 c).CheckCollision 1).1.CheckCollision 2).2
  refine ⟨?_, ?_, ?_, ?_⟩
  · rw [e1b, d1b, c1b, m1b]
  · rw [e1l, d1l, c1l, m1l]
  · rw [e2b, d2b, c2b, m2b]
  · rw [e2l, d2l, c2l, m2l]

lemma runSubSteps_lengths (gs : GameState) (move1 move2 : Direction) (m1 m2 : Nat)
    (counts : List Nat) :
    (gs.runSubSteps move1 move2 m1 m2 counts).snakes.1.body.length =
      gs.snakes.1.body.length ∧
    (gs.runSubSteps move1 move2 m1 m2 counts).snakes.1.length = gs.snakes.1.length ∧
    (gs.runSubSteps move1 move2 m1 m2 counts).snakes.2.body.length =
      gs.snakes.2.body.length ∧
    (gs.runSubSteps move1 move2 m1 m2 counts).snakes.2.length = gs.snakes.2.length := by
  induction counts generalizing gs with
  | nil => exact ⟨rfl, rfl, rfl, rfl⟩
  | cons c rest ih =>
    unfold GameState.runSubSteps
    dsimp only
    obtain ⟨s1b, s1l, s2b, s2l⟩ := subStep_lengths gs move1 move2 m1 m2 c
    split
    · exact ⟨s1b, s1l, s2b, s2l⟩
    · obtain ⟨i1b, i1l, i2b, i2l⟩ := ih (gs.subStep move1 move2 m1 m2 c).1
      exact ⟨i1b.trans s1b, i1l.trans s1l, i2b.trans s2b, i2l.trans s2l⟩

lemma CheckCollision_own_alive_body1 (gs : GameState)
    (h : ((gs.CheckCollision 1).1).snakes.1.alive = true) :
    ((gs.CheckCollision 1).1).snakes.1.body ≠ [] := by
  by_cases ha : gs.snakes.1.alive = true
  · by_cases hb : gs.snakes.1.body = []
    · exfalso
      unfold GameState.CheckCollision at h
      simp [GameState.getSnake, ha, hb, Snake.GetHead, GameState.setSnake] at h
    · rcases CheckCollision_kill_cases gs 1 with hc | ⟨r, hc⟩ <;> rw [hc]
      · exact hb
      · simpa [GameState.setSnake, GameState.getSnake] using hb
  · rw [CheckCollision_dead gs 1 (by simpa [GameState.getSnake] using ha)] at h
    exact absurd h ha

lemma CheckCollision_own_alive_body2 (gs : GameState)
    (h : ((gs.CheckCollision 2).1).snakes.2.alive = true) :
    ((gs.CheckCollision 2).1).snakes.2.body ≠ [] := by
  by_cases ha : gs.snakes.2.alive = true
  · by_cases hb : gs.snakes.2.body = []
    · exfalso
      unfold GameState.CheckCollision at h
      simp [GameState.getSnake, ha, hb, Snake.GetHead, GameState.setSnake] at h
    · rcases CheckCollision_kill_cases gs 2 with hc | ⟨r, hc⟩ <;> rw [hc]
      · exact hb
      · simpa [GameState.setSnake, GameState.getSnake] using hb
  · rw [CheckCollision_dead gs 2 (by simpa [GameState.getSnake] using ha)] at h
    exact absurd h ha

lemma resolveHeadToHead_alive1 (gs : GameState) (c1 c2 : Bool)
    (h : (gs.resolveHeadToHead c1 c2).1.snakes.1.alive = true) :
    gs.snakes.1.alive = true := by
  unfold GameState.resolveHeadToHead at h
  dsimp only at h
  split_ifs at h <;> simp_all [GameState.setSnake]

lemma resolveHeadToHead_alive2 (gs : GameState) (c1 c2 : Bool)
    (h : (gs.resolveHeadToHead c1 c2).1.snakes.2.alive = true) :
    gs.snakes.2.alive = true := by
  unfold GameState.resolveHeadToHead at h
  dsimp only at h
  split_ifs at h <;> simp_all [GameState.setSnake]

lemma subStep_alive_body (gs : GameState) (move1 move2 : Direction) (m1 m2 c : Nat) :
    (((gs.subStep move1 move2 m1 m2 c).1).snakes.1.alive = true →
      ((gs.subStep move1 move2 m1 m2 c).1).snakes.1.body ≠ []) ∧
    (((gs.subStep move1 move2 m1 m2 c).1).snakes.2.alive = true →
      ((gs.subStep move1 move2 m1 m2 c).1).snakes.2.body ≠ []) := by
  unfold GameState.subStep
  dsimp only
  constructor
  · intro h
    have hg2 := CheckCollision2_snakes1
      ((gs.moveSnakesStep move1 move2 m1 m2 c).CheckCollision 1).1
    have halive := resolveHeadToHead_alive1 _ _ _ h
    obtain ⟨hbody, _⟩ := resolveHeadToHead_core
      (((gs.moveSnakesStep move1 move2 m1 m2 c).CheckCollision 1).1.CheckCollision 2).1
      ((gs.moveSnakesStep move1 move2 m1 m2 c).CheckCollision 1).2
      (((gs.moveSnakesStep move1 move2 m1 m2 c).CheckCollision 1).1.CheckCollision 2).2
    rw [hbody, hg2]
    apply CheckCollision_own_alive_body1
    rw [← hg2]
    exact halive
  · intro h
    have halive := resolveHeadToHead_alive2 _ _ _ h
    obtain ⟨_, _, _, _, _, hbody, _⟩ := resolveHeadToHead_core
      (((gs.moveSnakesStep move1 move2 m1 m2 c).CheckCollision 1).1.CheckCollision 2).1
      ((gs.moveSnakesStep move1 move2 m1 m2 c).CheckCollision 1).2
      (((gs.moveSnakesStep move1 move2 m1 m2 c).CheckCollision 1).1.CheckCollision 2).2
    rw [hbody]
    exact CheckCollision_own_alive_body2 _ halive

lemma runSubSteps_alive_body (gs : GameState) (move1 move2 : Direction) (m1 m2 : Nat)
    (counts : List Nat) (hne : counts ≠ []) :
    ((gs.runSubSteps move1 move2 m1 m2 counts).snakes.1.alive = true →
      (gs.runSubSteps move1 move2 m1 m2 counts).snakes.1.body ≠ []) ∧
    ((gs.runSubSteps move1 move2 m1 m2 counts).snakes.2.alive = true →
      (gs.runSubSteps move1 move2 m1 m2 counts).snakes.2.body ≠ []) := by
  induction counts generalizing gs with
  | nil => exact absurd rfl hne
  | cons c rest ih =>
    unfold GameState.runSubSteps
    dsimp only
    split
    · exact subStep_alive_body gs move1 move2 m1 m2 c
    · rcases hr : rest with _ | ⟨c2, rest2⟩
      · exact subStep_alive_body gs move1 move2 m1 m2 c
      · exact hr ▸ ih (gs.subStep move1 move2 m1 m2 c).1 (by simp [hr])

lemma ApplyAppleEffect1_len (gs : GameState) (t : AppleType)
    (hinv : gs.snakes.1.length = (gs.snakes.1.body.length : Int))
    (hb : gs.snakes.1.body ≠ []) :
    (gs.ApplyAppleEffect 1 t).snakes.1.length =
      ((gs.ApplyAppleEffect 1 t).snakes.1.body.length : Int) ∧
    (gs.ApplyAppleEffect 1 t).snakes.2.length = gs.snakes.2.length ∧
    (gs.ApplyAppleEffect 1 t).snakes.2.body = gs.snakes.2.body := by
  have hpos : 0 < gs.snakes.1.body.length := List.length_pos.mpr hb
  cases t <;> unfold GameState.ApplyAppleEffect <;> dsimp only <;>
    simp only [GameState.getSnake, GameState.setSnake] <;>
    split_ifs <;>
    simp_all [List.length_append, List.length_dropLast]

lemma ApplyAppleEffect2_len (gs : GameState) (t : AppleType)
    (hinv : gs.snakes.2.length = (gs.snakes.2.body.length : Int))
    (hb : gs.snakes.2.body ≠ []) :
    (gs.ApplyAppleEffect 2 t).snakes.2.length =
      ((gs.ApplyAppleEffect 2 t).snakes.2.body.length : Int) ∧
    (gs.ApplyAppleEffect 2 t).snakes.1.length = gs.snakes.1.length ∧
    (gs.ApplyAppleEffect 2 t).snakes.1.body = gs.snakes.1.body := by
  have hpos : 0 < gs.snakes.2.body.length := List.length_pos.mpr hb
  cases t <;> unfold GameState.ApplyAppleEffect <;> dsimp only <;>
    simp only [GameState.getSnake, GameState.setSnake] <;>
    split_ifs <;>
    simp_all [List.length_append, List.length_dropLast]

lemma appleStep1_len (gs : GameState) (r : Nat × Nat)
    (hinv1 : gs.snakes.1.length = (gs.snakes.1.body.length : Int))
    (hab : gs.snakes.1.alive = true → gs.snakes.1.body ≠ []) :
    ((gs.appleStep 1 r).1.snakes.1.length =
      ((gs.appleStep 1 r).1.snakes.1.body.length : Int)) ∧
    ((gs.appleStep 1 r).1.snakes.2.length = gs.snakes.2.length) ∧
    ((gs.appleStep 1 r).1.snakes.2.body = gs.snakes.2.body) ∧
    ((gs.appleStep 1 r).1.snakes.2.alive = gs.snakes.2.alive) := by
  have h2 : ((gs.appleStep 1 r).1.snakes.2.length = gs.snakes.2.length) ∧
      ((gs.appleStep 1 r).1.snakes.2.body = gs.snakes.2.body) ∧
      ((gs.appleStep 1 r).1.snakes.2.alive = gs.snakes.2.alive) := by
    rcases appleStep1_snakes2 gs r with hX | hX <;> rw [hX] <;> exact ⟨rfl, rfl, rfl⟩
  refine ⟨?_, h2.1, h2.2.1, h2.2.2⟩
  unfold GameState.appleStep
  dsimp only
  split
  · rename_i halive
    have hcs := CheckAppleEaten_snakes gs 1
    split
    · rename_i t heq
      have hb : ((gs.CheckAppleEaten 1).1).snakes.1.body ≠ [] := by
        rw [hcs]
        exact hab (by simpa [GameState.getSnake] using halive)
      have hinv : ((gs.CheckAppleEaten 1).1).snakes.1.length =
          (((gs.CheckAppleEaten 1).1).snakes.1.body.length : Int) := by
        rw [hcs]; exact hinv1
      obtain ⟨hmain, _, _⟩ := ApplyAppleEffect1_len ((gs.CheckAppleEaten 1).1) t hinv hb
      rw [SpawnApple_snakes]
      exact hmain
    · rw [hcs]
      exact hinv1
  · exact hinv1

lemma appleStep2_len (gs : GameState) (r : Nat × Nat)
    (hinv1 : gs.snakes.1.length = (gs.snakes.1.body.length : Int))
    (hinv2 : gs.snakes.2.length = (gs.snakes.2.body.length : Int))
    (hab : gs.snakes.2.alive = true → gs.snakes.2.body ≠ []) :
    ((gs.appleStep 2 r).1.snakes.2.length =
      ((gs.appleStep 2 r).1.snakes.2.body.length : Int)) ∧
    ((gs.appleStep 2 r).1.snakes.1.length =
      ((gs.appleStep 2 r).1.snakes.1.body.length : Int)) := by
  have h1 : ((gs.appleStep 2 r).1.snakes.1.length =
      ((gs.appleStep 2 r).1.snakes.1.body.length : Int)) := by
    rcases appleStep2_snakes1 gs r with hX | hX <;> rw [hX] <;> exact hinv1
  refine ⟨?_, h1⟩
  unfold GameState.appleStep
  dsimp only
  split
  · rename_i halive
    have hcs := CheckAppleEaten_snakes gs 2
    split
    · rename_i t heq
      have hb : ((gs.CheckAppleEaten 2).1).snakes.2.body ≠ [] := by
        rw [hcs]
        exact hab (by simpa [GameState.getSnake] using halive)
      have hinv : ((gs.CheckAppleEaten 2).1).snakes.2.length =
          (((gs.CheckAppleEaten 2).1).snakes.2.body.length : Int) := by
        rw [hcs]; exact hinv2
      obtain ⟨hmain, _, _⟩ := ApplyAppleEffect2_len ((gs.CheckAppleEaten 2).1) t hinv hb
      rw [SpawnApple_snakes]
      exact hmain
    · rw [hcs]
      exact hinv2
  · exact hinv2

lemma energyStep_core (gs : GameState) (i : Nat) (ate : Bool) :
    (gs.energyStep i ate).snakes.1.body = gs.snakes.1.body ∧
    (gs.energyStep i ate).snakes.1.length = gs.snakes.1.length ∧
    (gs.energyStep i ate).snakes.2.body = gs.snakes.2.body ∧
    (gs.energyStep i ate).snakes.2.length = gs.snakes.2.length := by
  unfold GameState.energyStep
  dsimp only
  split
  · by_cases hi : i = 1 <;> split_ifs <;> simp [GameState.setSnake, GameState.getSnake, hi]
  · exact ⟨rfl, rfl, rfl, rfl⟩

lemma afterLoop_len (L : GameState) (r1 r2 : Nat × Nat)
    (hinv1 : L.snakes.1.length = (L.snakes.1.body.length : Int))
    (hinv2 : L.snakes.2.length = (L.snakes.2.body.length : Int))
    (hab1 : L.snakes.1.alive = true → L.snakes.1.body ≠ [])
    (hab2 : L.snakes.2.alive = true → L.snakes.2.body ≠ []) :
    let a1 := L.appleStep 1 r1
    let a2 := a1.1.appleStep 2 r2
    let res := ((a2.1.timerStep.energyStep 1 a1.2).energyStep 2 a2.2).checkGameOver
    (res.snakes.1.length = (res.snakes.1.body.length : Int)) ∧
    (res.snakes.2.length = (res.snakes.2.body.length : Int)) := by
  dsimp only
  obtain ⟨ha1s1, ha1len2, ha1body2, ha1alive2⟩ := appleStep1_len L r1 hinv1 hab1
  have hinv2A : (L.appleStep 1 r1).1.snakes.2.length =
      ((L.appleStep 1 r1).1.snakes.2.body.length : Int) := by
    rw [ha1len2, ha1body2]; exact hinv2
  have hab2A : (L.appleStep 1 r1).1.snakes.2.alive = true →
      (L.appleStep 1 r1).1.snakes.2.body ≠ [] := by
    intro h
    rw [ha1body2]
    exact hab2 (ha1alive2 ▸ h)
  obtain ⟨ha2s2, ha2s1⟩ := appleStep2_len (L.appleStep 1 r1).1 r2 ha1s1 hinv2A hab2A
  obtain ⟨htb1, _, htl1, _⟩ :=
    timerStep_fields1 ((L.appleStep 1 r1).1.appleStep 2 r2).1
  obtain ⟨htb2, _, htl2, _⟩ :=
    timerStep_fields2 ((L.appleStep 1 r1).1.appleStep 2 r2).1
  obtain ⟨he1b1, he1l1, he1b2, he1l2⟩ :=
    energyStep_core (((L.appleStep 1 r1).1.appleStep 2 r2).1.timerStep) 1
      (L.appleStep 1 r1).2
  obtain ⟨he2b1, he2l1, he2b2, he2l2⟩ :=
    energyStep_core ((((L.appleStep 1 r1).1.appleStep 2 r2).1.timerStep).energyStep 1
      (L.appleStep 1 r1).2) 2 ((L.appleStep 1 r1).1.appleStep 2 r2).2
  constructor
  · rw [checkGameOver_snakes, he2l1, he2b1, he1l1, he1b1, htl1, htb1]
    exact ha2s1
  · rw [checkGameOver_snakes, he2l2, he2b2, he1l2, he1b2, htl2, htb2]
    exact ha2s2

/-- Claim C9: if each snake's `length` field equals its body-array length
before the turn, it does so again after `ProcessTurn` completes (movement,
collisions, every apple type's effect, timers, energy depletion, and game-over
check). -/
theorem C9_length_invariant (gs : GameState) (move1 move2 : Direction) (r1 r2 : Nat × Nat)
    (h1 : gs.snakes.1.length = (gs.snakes.1.body.length : Int))
    (h2 : gs.snakes.2.length = (gs.snakes.2.body.length : Int)) :
    (gs.ProcessTurn move1 move2 r1 r2).snakes.1.length =
      ((gs.ProcessTurn move1 move2 r1 r2).snakes.1.body.length : Int) ∧
    (gs.ProcessTurn move1 move2 r1 r2).snakes.2.length =
      ((gs.ProcessTurn move1 move2 r1 r2).snakes.2.body.length : Int) := by
  unfold GameState.ProcessTurn
  dsimp only
  have hM1 : 0 < (if gs.snakes.1.speedTurns > 0 then 2 else 1 : Nat) := by
    split_ifs <;> omega
  have hrange : List.range (max (if gs.snakes.1.speedTurns > 0 then 2 else 1)
      (if gs.snakes.2.speedTurns > 0 then 2 else 1) : Nat) ≠ [] := by
    rw [ne_eq, List.range_eq_nil]
    have := Nat.le_max_left (if gs.snakes.1.speedTurns > 0 then 2 else 1 : Nat)
      (if gs.snakes.2.speedTurns > 0 then 2 else 1 : Nat)
    omega
  obtain ⟨hlb1, hll1, hlb2, hll2⟩ := runSubSteps_lengths { gs with turn := gs.turn + 1 }
    move1 move2 (if gs.snakes.1.speedTurns > 0 then 2 else 1)
    (if gs.snakes.2.speedTurns > 0 then 2 else 1)
    (List.range (max (if gs.snakes.1.speedTurns > 0 then 2 else 1)
      (if gs.snakes.2.speedTurns > 0 then 2 else 1)))
  have habs := runSubSteps_alive_body { gs with turn := gs.turn + 1 }
    move1 move2 (if gs.snakes.1.speedTurns > 0 then 2 else 1)
    (if gs.snakes.2.speedTurns > 0 then 2 else 1)
    (List.range (max (if gs.snakes.1.speedTurns > 0 then 2 else 1)
      (if gs.snakes.2.speedTurns > 0 then 2 else 1))) hrange
  exact afterLoop_len _ r1 r2 (by rw [hll1, hlb1]; exact h1)
    (by rw [hll2, hlb2]; exact h2) habs.1 habs.2

/-- A fresh-looking board where snake 1 eats a NORMAL apple this turn. -/
def c9State : GameState :=
  { turn := 0, gridWidth := 8, gridHeight := 8,
    snakes :=
      ({ id := 1, body := [⟨1, 2⟩, ⟨1, 1⟩, ⟨1, 0⟩], direction := .down, alive := true,
         length := 3, score := 0, speedTurns := 0, sleepTurns := 0, energy := 60,
         deathReason := "" },
       { id := 2, body := [⟨6, 5⟩, ⟨6, 6⟩, ⟨6, 7⟩], direction := .up, alive := true,
         length := 3, score := 0, speedTurns := 0, sleepTurns := 0, energy := 60,
         deathReason := "" }),
    apples := [⟨1, 3, .normal⟩], map := none, winner := 0, gameOver := false }

/-- Claim C9 (witness): the invariant theorem applied to a concrete turn in
which snake 1 eats and grows. -/
theorem C9_witness :
    (c9State.ProcessTurn .down .up (0, 0) (0, 0)).snakes.1.length =
      ((c9State.ProcessTurn .down .up (0, 0) (0, 0)).snakes.1.body.length : Int) ∧
    (c9State.ProcessTurn .down .up (0, 0) (0, 0)).snakes.2.length =
      ((c9State.ProcessTurn .down .up (0, 0) (0, 0)).snakes.2.body.length : Int) :=
  C9_length_invariant c9State .down .up (0, 0) (0, 0) (by decide) (by decide)

/-- A state where snake 1 has speed while snake 2 is about to hit the left
wall on the first sub-step. -/
def c5BreakState : GameState :=
  { turn := 0, gridWidth := 10, gridHeight := 10,
    snakes :=
      ({ id := 1, body := [⟨2, 2⟩, ⟨2, 1⟩], direction := .down, alive := true, length := 2,
         score := 0, speedTurns := 3, sleepTurns := 0, energy := 50, deathReason := "" },
       { id := 2, body := [⟨0, 5⟩, ⟨1, 5⟩], direction := .left, alive := true, length := 2,
         score := 0, speedTurns := 0, sleepTurns := 0, energy := 50, deathReason := "" }),
    apples := [], map := none, winner := 0, gameOver := false }

/-- Claim C5 (counterexample): snake 1 has positive speed-turns and zero
sleep-turns, yet advances only one cell this turn: snake 2's wall collision in
the first sub-step breaks the movement loop before the second sub-step. -/
theorem C5_counterexample :
    c5BreakState.snakes.1.speedTurns > 0 ∧
    c5BreakState.snakes.1.sleepTurns = 0 ∧
    (c5BreakState.ProcessTurn .down .left (0, 0) (0, 0)).snakes.1.GetHead =
      getNextPosition c5BreakState.snakes.1.GetHead .down ∧
    (c5BreakState.ProcessTurn .down .left (0, 0) (0, 0)).snakes.1.GetHead ≠
      getNextPosition (getNextPosition c5BreakState.snakes.1.GetHead .down) .down := by
  decide

lemma CheckCollision_flag_false (gs : GameState) (i : Nat)
    (h : (gs.CheckCollision i).2 = false) :
    (gs.CheckCollision i).1 = gs := by
  unfold GameState.CheckCollision at *
  rcases hm : gs.map with _ | m <;> dsimp only at h ⊢ <;>
    split_ifs at h ⊢ <;> simp_all

lemma resolveHeadToHead_flags_false (gs : GameState) (c1 c2 : Bool)
    (h : ((gs.resolveHeadToHead c1 c2).2.1 || (gs.resolveHeadToHead c1 c2).2.2) = false) :
    (gs.resolveHeadToHead c1 c2).1 = gs ∧ c1 = false ∧ c2 = false := by
  unfold GameState.resolveHeadToHead at *
  dsimp only at h ⊢
  split_ifs at h ⊢ <;> simp_all

lemma subStep_nobreak (gs : GameState) (move1 move2 : Direction) (m1 m2 c : Nat)
    (h : (gs.subStep move1 move2 m1 m2 c).2 = false) :
    (gs.subStep move1 move2 m1 m2 c).1 =
      gs.moveSnakesStep move1 move2 m1 m2 c ∧
    ((gs.moveSnakesStep move1 move2 m1 m2 c).CheckCollision 1).2 = false ∧
    (((gs.moveSnakesStep move1 move2 m1 m2 c).CheckCollision 1).1.CheckCollision 2).2 =
      false := by
  unfold GameState.subStep at *
  dsimp only at h ⊢
  obtain ⟨hstate, hc1, hc2⟩ := resolveHeadToHead_flags_false _ _ _ h
  refine ⟨?_, hc1, hc2⟩
  rw [hstate, CheckCollision_flag_false _ 2 hc2, CheckCollision_flag_false _ 1 hc1]

lemma Move_alive (s : Snake) (mv : Direction) (g : Bool) :
    (s.Move mv g).alive = s.alive := by
  unfold Snake.Move
  dsimp only
  split_ifs <;> rfl

lemma Move_sleep (s : Snake) (mv : Direction) (g : Bool) :
    (s.Move mv g).sleepTurns = s.sleepTurns := by
  unfold Snake.Move
  dsimp only
  split_ifs <;> rfl

lemma Move_head (s : Snake) (h : s.alive = true) (hb : s.body ≠ []) (mv : Direction) :
    (s.Move mv false).GetHead = getNextPosition s.GetHead (s.Move mv false).direction := by
  obtain ⟨b0, rest, hb0⟩ : ∃ b0 rest, s.body = b0 :: rest := by
    rcases hbody : s.body with _ | ⟨b0, rest⟩
    · exact absurd hbody hb
    · exact ⟨b0, rest, rfl⟩
  by_cases h180 : s.isNot180 mv = true <;>
    simp [Snake.Move, h, h180, Snake.GetHead, hb0, List.dropLast]

lemma Move_direction (s : Snake) (h : s.alive = true) (mv : Direction) :
    (s.Move mv false).direction = (if s.isNot180 mv = true then mv else s.direction) := by
  by_cases h180 : s.isNot180 mv = true <;> simp [Snake.Move, h, h180]

lemma Move_direction_stable (s : Snake) (mv : Direction) :
    ((s.Move mv false).Move mv false).direction = (s.Move mv false).direction := by
  by_cases ha : s.alive = true
  · have hAalive : (s.Move mv false).alive = true := by rw [Move_alive]; exact ha
    by_cases h180 : s.isNot180 mv = true
    · have hAdir : (s.Move mv false).direction = mv := by
        rw [Move_direction s ha, if_pos h180]
      have hA180 : (s.Move mv false).isNot180 mv = true := by
        unfold Snake.isNot180
        split
        · rfl
        · rw [hAdir]
          cases mv <;> decide
      rw [Move_direction _ hAalive, if_pos hA180, hAdir]
    · have hAdir : (s.Move mv false).direction = s.direction := by
        rw [Move_direction s ha, if_neg h180]
      have h2 : ¬s.body.length < 2 := by
        intro hlt
        exact h180 (by unfold Snake.isNot180; rw [if_pos hlt])
      have hop : opposite s.direction = mv := by
        unfold Snake.isNot180 at h180
        rw [if_neg h2] at h180
        simpa using h180
      have hA180 : (s.Move mv false).isNot180 mv = false := by
        unfold Snake.isNot180
        rw [if_neg (by rw [(Move_lengths s mv).1]; exact h2)]
        simp [hAdir, hop]
      rw [Move_direction _ hAalive, if_neg (by rw [hA180]; exact Bool.false_ne_true), hAdir]
  · have hd : s.alive = false := by simpa using ha
    simp [Move_dead _ hd]

lemma Move_body_ne (s : Snake) (hb : s.body ≠ []) (mv : Direction) :
    (s.Move mv false).body ≠ [] := by
  have := (Move_lengths s mv).1
  intro hcon
  rw [hcon] at this
  exact hb (List.length_eq_zero.mp this.symm)

lemma moveSnakesStep_snakes1_moves (gs : GameState) (move1 move2 : Direction)
    (m1 m2 c : Nat) (hsl : gs.snakes.1.sleepTurns ≤ 0) (hc : c < m1) :
    (gs.moveSnakesStep move1 move2 m1 m2 c).snakes.1 = gs.snakes.1.Move move1 false := by
  unfold GameState.moveSnakesStep
  dsimp only
  rw [if_pos (show gs.snakes.1.sleepTurns ≤ 0 ∧ c < m1 from ⟨hsl, hc⟩)]
  by_cases hQ : ((gs.setSnake 1 (gs.snakes.1.Move move1 false)).snakes.2.sleepTurns ≤ 0 ∧
      c < m2)
  · rw [if_pos hQ, setSnake2_snakes, setSnake1_snakes]
  · rw [if_neg hQ, setSnake1_snakes]

lemma moveSnakesStep_snakes2_moves (gs : GameState) (move1 move2 : Direction)
    (m1 m2 c : Nat) (hsl : gs.snakes.2.sleepTurns ≤ 0) (hc : c < m2) :
    (gs.moveSnakesStep move1 move2 m1 m2 c).snakes.2 = gs.snakes.2.Move move2 false := by
  unfold GameState.moveSnakesStep
  dsimp only
  by_cases hP : (gs.snakes.1.sleepTurns ≤ 0 ∧ c < m1)
  · rw [if_pos hP,
      if_pos (show ((gs.setSnake 1 (gs.snakes.1.Move move1 false)).snakes.2.sleepTurns ≤ 0 ∧
        c < m2) from ⟨by rw [setSnake1_snakes]; exact hsl, hc⟩),
      setSnake2_snakes, setSnake1_snakes]
  · rw [if_neg hP, if_pos (show (gs.snakes.2.sleepTurns ≤ 0 ∧ c < m2) from ⟨hsl, hc⟩),
      setSnake2_snakes]

lemma subStep_core (gs : GameState) (move1 move2 : Direction) (m1 m2 c : Nat) :
    ((gs.subStep move1 move2 m1 m2 c).1).snakes.1.body =
      (gs.moveSnakesStep move1 move2 m1 m2 c).snakes.1.body ∧
    ((gs.subStep move1 move2 m1 m2 c).1).snakes.1.direction =
      (gs.moveSnakesStep move1 move2 m1 m2 c).snakes.1.direction ∧
    ((gs.subStep move1 move2 m1 m2 c).1).snakes.2.body =
      (gs.moveSnakesStep move1 move2 m1 m2 c).snakes.2.body ∧
    ((gs.subStep move1 move2 m1 m2 c).1).snakes.2.direction =
      (gs.moveSnakesStep move1 move2 m1 m2 c).snakes.2.direction := by
  unfold GameState.subStep
  dsimp only
  obtain ⟨c1b, _, c1d, _, _, c2b, _, c2d, _, _⟩ :=
    CheckCollision_core (gs.moveSnakesStep move1 move2 m1 m2 c) 1
  obtain ⟨d1b, _, d1d, _, _, d2b, _, d2d, _, _⟩ :=
    CheckCollision_core ((gs.moveSnakesStep move1 move2 m1 m2 c).CheckCollision 1).1 2
  obtain ⟨e1b, _, e1d, _, _, e2b, _, e2d, _, _⟩ :=
    resolveHeadToHead_core
      (((gs.moveSnakesStep move1 move2 m1 m2 c).CheckCollision 1).1.CheckCollision 2).1
      ((gs.moveSnakesStep move1 move2 m1 m2 c).CheckCollision 1).2
      (((gs.moveSnakesStep move1 move2 m1 m2 c).CheckCollision 1).1.CheckCollision 2).2
  exact ⟨e1b.trans (d1b.trans c1b), e1d.trans (d1d.trans c1d),
    e2b.trans (d2b.trans c2b), e2d.trans (d2d.trans c2d)⟩

lemma runSubSteps_two (gs : GameState) (move1 move2 : Direction) (m1 m2 : Nat)
    (h : (gs.subStep move1 move2 m1 m2 0).2 = false) :
    gs.runSubSteps move1 move2 m1 m2 [0, 1] =
      (((gs.subStep move1 move2 m1 m2 0).1).subStep move1 move2 m1 m2 1).1 := by
  unfold GameState.runSubSteps
  dsimp only
  rw [h]
  simp only [Bool.false_eq_true, if_false]
  unfold GameState.runSubSteps
  dsimp only
  split <;> rfl

lemma ApplyAppleEffect1_headdir (gs : GameState) (t : AppleType)
    (hinv : gs.snakes.1.length = (gs.snakes.1.body.length : Int))
    (hb : gs.snakes.1.body ≠ []) :
    (gs.ApplyAppleEffect 1 t).snakes.1.GetHead = gs.snakes.1.GetHead ∧
    (gs.ApplyAppleEffect 1 t).snakes.1.direction = gs.snakes.1.direction := by
  obtain ⟨b0, rest, hb0⟩ : ∃ b0 rest, gs.snakes.1.body = b0 :: rest := by
    rcases hbody : gs.snakes.1.body with _ | ⟨b0, rest⟩
    · exact absurd hbody hb
    · exact ⟨b0, rest, rfl⟩
  cases t
  case normal =>
    unfold GameState.ApplyAppleEffect
    dsimp only
    simp [GameState.getSnake, GameState.setSnake, hb0, Snake.GetHead]
  case god =>
    unfold GameState.ApplyAppleEffect
    dsimp only
    simp [GameState.getSnake, GameState.setSnake, hb0, Snake.GetHead]
  case speed =>
    unfold GameState.ApplyAppleEffect
    dsimp only
    simp [GameState.getSnake, GameState.setSnake, hb0, Snake.GetHead]
  case sleep =>
    unfold GameState.ApplyAppleEffect
    dsimp only
    simp [GameState.getSnake, GameState.setSnake, hb0, Snake.GetHead]
  case poison =>
    by_cases hlen : gs.snakes.1.length > 1
    · have h2 : 2 ≤ gs.snakes.1.body.length := by omega
      obtain ⟨c0, c1, rest2, hb2⟩ : ∃ c0 c1 rest2, gs.snakes.1.body = c0 :: c1 :: rest2 := by
        match hbody : gs.snakes.1.body, h2 with
        | c0 :: c1 :: rest2, _ => exact ⟨c0, c1, rest2, rfl⟩
      simp [GameState.ApplyAppleEffect, GameState.getSnake, GameState.setSnake, hlen, hb2,
        Snake.GetHead, List.dropLast, apply_ite Snake.GetHead, apply_ite Snake.direction,
        apply_ite Snake.body]
    · simp [GameState.ApplyAppleEffect, GameState.getSnake, GameState.setSnake, hlen, hb0,
        Snake.GetHead, apply_ite Snake.GetHead, apply_ite Snake.direction,
        apply_ite Snake.body]

lemma ApplyAppleEffect2_headdir (gs : GameState) (t : AppleType)
    (hinv : gs.snakes.2.length = (gs.snakes.2.body.length : Int))
    (hb : gs.snakes.2.body ≠ []) :
    (gs.ApplyAppleEffect 2 t).snakes.2.GetHead = gs.snakes.2.GetHead ∧
    (gs.ApplyAppleEffect 2 t).snakes.2.direction = gs.snakes.2.direction := by
  obtain ⟨b0, rest, hb0⟩ : ∃ b0 rest, gs.snakes.2.body = b0 :: rest := by
    rcases hbody : gs.snakes.2.body with _ | ⟨b0, rest⟩
    · exact absurd hbody hb
    · exact ⟨b0, rest, rfl⟩
  cases t
  case normal =>
    unfold GameState.ApplyAppleEffect
    dsimp only
    simp [GameState.getSnake, GameState.setSnake, hb0, Snake.GetHead]
  case god =>
    unfold GameState.ApplyAppleEffect
    dsimp only
    simp [GameState.getSnake, GameState.setSnake, hb0, Snake.GetHead]
  case speed =>
    unfold GameState.ApplyAppleEffect
    dsimp only
    simp [GameState.getSnake, GameState.setSnake, hb0, Snake.GetHead]
  case sleep =>
    unfold GameState.ApplyAppleEffect
    dsimp only
    simp [GameState.getSnake, GameState.setSnake, hb0, Snake.GetHead]
  case poison =>
    by_cases hlen : gs.snakes.2.length > 1
    · have h2 : 2 ≤ gs.snakes.2.body.length := by omega
      obtain ⟨c0, c1, rest2, hb2⟩ : ∃ c0 c1 rest2, gs.snakes.2.body = c0 :: c1 :: rest2 := by
        match hbody : gs.snakes.2.body, h2 with
        | c0 :: c1 :: rest2, _ => exact ⟨c0, c1, rest2, rfl⟩
      simp [GameState.ApplyAppleEffect, GameState.getSnake, GameState.setSnake, hlen, hb2,
        Snake.GetHead, List.dropLast, apply_ite Snake.GetHead, apply_ite Snake.direction,
        apply_ite Snake.body]
    · simp [GameState.ApplyAppleEffect, GameState.getSnake, GameState.setSnake, hlen, hb0,
        Snake.GetHead, apply_ite Snake.GetHead, apply_ite Snake.direction,
        apply_ite Snake.body]

lemma appleStep1_headdir (gs : GameState) (r : Nat × Nat)
    (hinv1 : gs.snakes.1.length = (gs.snakes.1.body.length : Int))
    (hab1 : gs.snakes.1.alive = true → gs.snakes.1.body ≠ []) :
    ((gs.appleStep 1 r).1).snakes.1.GetHead = gs.snakes.1.GetHead ∧
    ((gs.appleStep 1 r).1).snakes.1.direction = gs.snakes.1.direction := by
  unfold GameState.appleStep
  dsimp only
  split
  · rename_i halive
    have hcs := CheckAppleEaten_snakes gs 1
    split
    · rename_i t heq
      have hb : ((gs.CheckAppleEaten 1).1).snakes.1.body ≠ [] := by
        rw [hcs]
        exact hab1 (by simpa [GameState.getSnake] using halive)
      have hinv : ((gs.CheckAppleEaten 1).1).snakes.1.length =
          (((gs.CheckAppleEaten 1).1).snakes.1.body.length : Int) := by
        rw [hcs]; exact hinv1
      obtain ⟨hh, hd⟩ := ApplyAppleEffect1_headdir ((gs.CheckAppleEaten 1).1) t hinv hb
      constructor
      · rw [SpawnApple_snakes, hh, hcs]
      · rw [SpawnApple_snakes, hd, hcs]
    · rw [hcs]
      exact ⟨rfl, rfl⟩
  · exact ⟨rfl, rfl⟩

lemma appleStep2_headdir (gs : GameState) (r : Nat × Nat)
    (hinv2 : gs.snakes.2.length = (gs.snakes.2.body.length : Int))
    (hab2 : gs.snakes.2.alive = true → gs.snakes.2.body ≠ []) :
    ((gs.appleStep 2 r).1).snakes.2.GetHead = gs.snakes.2.GetHead ∧
    ((gs.appleStep 2 r).1).snakes.2.direction = gs.snakes.2.direction := by
  unfold GameState.appleStep
  dsimp only
  split
  · rename_i halive
    have hcs := CheckAppleEaten_snakes gs 2
    split
    · rename_i t heq
      have hb : ((gs.CheckAppleEaten 2).1).snakes.2.body ≠ [] := by
        rw [hcs]
        exact hab2 (by simpa [GameState.getSnake] using halive)
      have hinv : ((gs.CheckAppleEaten 2).1).snakes.2.length =
          (((gs.CheckAppleEaten 2).1).snakes.2.body.length : Int) := by
        rw [hcs]; exact hinv2
      obtain ⟨hh, hd⟩ := ApplyAppleEffect2_headdir ((gs.CheckAppleEaten 2).1) t hinv hb
      constructor
      · rw [SpawnApple_snakes, hh, hcs]
      · rw [SpawnApple_snakes, hd, hcs]
    · rw [hcs]
      exact ⟨rfl, rfl⟩
  · exact ⟨rfl, rfl⟩

lemma appleStep2_headdir1 (gs : GameState) (r : Nat × Nat) :
    ((gs.appleStep 2 r).1).snakes.1.GetHead = gs.snakes.1.GetHead ∧
    ((gs.appleStep 2 r).1).snakes.1.direction = gs.snakes.1.direction := by
  rcases appleStep2_snakes1 gs r with hX | hX <;> rw [hX] <;> exact ⟨rfl, rfl⟩

lemma appleStep1_headdir2 (gs : GameState) (r : Nat × Nat) :
    ((gs.appleStep 1 r).1).snakes.2.GetHead = gs.snakes.2.GetHead ∧
    ((gs.appleStep 1 r).1).snakes.2.direction = gs.snakes.2.direction := by
  rcases appleStep1_snakes2 gs r with hX | hX <;> rw [hX] <;> exact ⟨rfl, rfl⟩

lemma energyStep_dir (gs : GameState) (i : Nat) (ate : Bool) :
    (gs.energyStep i ate).snakes.1.direction = gs.snakes.1.direction ∧
    (gs.energyStep i ate).snakes.2.direction = gs.snakes.2.direction := by
  unfold GameState.energyStep
  dsimp only
  split
  · by_cases hi : i = 1 <;> split_ifs <;> simp [GameState.setSnake, GameState.getSnake, hi]
  · exact ⟨rfl, rfl⟩

lemma GetHead_congr (s t : Snake) (h : s.body = t.body) : s.GetHead = t.GetHead := by
  unfold Snake.GetHead
  rw [h]

lemma afterLoop_headdir1 (L : GameState) (r1 r2 : Nat × Nat)
    (hinv1 : L.snakes.1.length = (L.snakes.1.body.length : Int))
    (hab1 : L.snakes.1.alive = true → L.snakes.1.body ≠ []) :
    let a1 := L.appleStep 1 r1
    let a2 := a1.1.appleStep 2 r2
    let res := ((a2.1.timerStep.energyStep 1 a1.2).energyStep 2 a2.2).checkGameOver
    res.snakes.1.GetHead = L.snakes.1.GetHead ∧
    res.snakes.1.direction = L.snakes.1.direction := by
  dsimp only
  obtain ⟨hA1h, hA1d⟩ := appleStep1_headdir L r1 hinv1 hab1
  obtain ⟨hA2h, hA2d⟩ := appleStep2_headdir1 (L.appleStep 1 r1).1 r2
  obtain ⟨htb, htd, _⟩ := timerStep_fields1 ((L.appleStep 1 r1).1.appleStep 2 r2).1
  obtain ⟨he1b, _, _, _⟩ :=
    energyStep_core (((L.appleStep 1 r1).1.appleStep 2 r2).1.timerStep) 1
      (L.appleStep 1 r1).2
  obtain ⟨he1d, _⟩ :=
    energyStep_dir (((L.appleStep 1 r1).1.appleStep 2 r2).1.timerStep) 1
      (L.appleStep 1 r1).2
  obtain ⟨he2b, _, _, _⟩ :=
    energyStep_core ((((L.appleStep 1 r1).1.appleStep 2 r2).1.timerStep).energyStep 1
      (L.appleStep 1 r1).2) 2 ((L.appleStep 1 r1).1.appleStep 2 r2).2
  obtain ⟨he2d, _⟩ :=
    energyStep_dir ((((L.appleStep 1 r1).1.appleStep 2 r2).1.timerStep).energyStep 1
      (L.appleStep 1 r1).2) 2 ((L.appleStep 1 r1).1.appleStep 2 r2).2
  constructor
  · rw [checkGameOver_snakes, GetHead_congr _ _ he2b, GetHead_congr _ _ he1b,
      GetHead_congr _ _ htb, hA2h, hA1h]
  · rw [checkGameOver_snakes, he2d, he1d, htd, hA2d, hA1d]

lemma afterLoop_headdir2 (L : GameState) (r1 r2 : Nat × Nat)
    (hinv2 : L.snakes.2.length = (L.snakes.2.body.length : Int))
    (hab2 : L.snakes.2.alive = true → L.snakes.2.body ≠ []) :
    let a1 := L.appleStep 1 r1
    let a2 := a1.1.appleStep 2 r2
    let res := ((a2.1.timerStep.energyStep 1 a1.2).energyStep 2 a2.2).checkGameOver
    res.snakes.2.GetHead = L.snakes.2.GetHead ∧
    res.snakes.2.direction = L.snakes.2.direction := by
  dsimp only
  have hpres : ((L.appleStep 1 r1).1.snakes.2.length = L.snakes.2.length) ∧
      ((L.appleStep 1 r1).1.snakes.2.body = L.snakes.2.body) ∧
      ((L.appleStep 1 r1).1.snakes.2.alive = L.snakes.2.alive) := by
    rcases appleStep1_snakes2 L r1 with hX | hX <;> rw [hX] <;> exact ⟨rfl, rfl, rfl⟩
  obtain ⟨hA1h, hA1d⟩ := appleStep1_headdir2 L r1
  obtain ⟨hA2h, hA2d⟩ := appleStep2_headdir (L.appleStep 1 r1).1 r2
    (by rw [hpres.1, hpres.2.1]; exact hinv2)
    (by intro h; rw [hpres.2.1]; exact hab2 (hpres.2.2 ▸ h))
  obtain ⟨htb, htd, _⟩ :=
    timerStep_fields2 ((L.appleStep 1 r1).1.appleStep 2 r2).1
  obtain ⟨_, _, he1b, _⟩ :=
    energyStep_core (((L.appleStep 1 r1).1.appleStep 2 r2).1.timerStep) 1
      (L.appleStep 1 r1).2
  obtain ⟨_, he1d⟩ :=
    energyStep_dir (((L.appleStep 1 r1).1.appleStep 2 r2).1.timerStep) 1
      (L.appleStep 1 r1).2
  obtain ⟨_, _, he2b, _⟩ :=
    energyStep_core ((((L.appleStep 1 r1).1.appleStep 2 r2).1.timerStep).energyStep 1
      (L.appleStep 1 r1).2) 2 ((L.appleStep 1 r1).1.appleStep 2 r2).2
  obtain ⟨_, he2d⟩ :=
    energyStep_dir ((((L.appleStep 1 r1).1.appleStep 2 r2).1.timerStep).energyStep 1
      (L.appleStep 1 r1).2) 2 ((L.appleStep 1 r1).1.appleStep 2 r2).2
  constructor
  · rw [checkGameOver_snakes, GetHead_congr _ _ he2b, GetHead_congr _ _ he1b,
      GetHead_congr _ _ htb, hA2h, hA1h]
  · rw [checkGameOver_snakes, he2d, he1d, htd, hA2d, hA1d]

lemma C5_part1 (gs : GameState) (move1 move2 : Direction) (r1 r2 : Nat × Nat)
    (ha : gs.snakes.1.alive = true) (hsp : gs.snakes.1.speedTurns > 0)
    (hsl : gs.snakes.1.sleepTurns = 0)
    (hinv : gs.snakes.1.length = (gs.snakes.1.body.length : Int))
    (hnb : (({ gs with turn := gs.turn + 1 } : GameState).subStep move1 move2 2
      (if gs.snakes.2.speedTurns > 0 then 2 else 1) 0).2 = false) :
    (gs.ProcessTurn move1 move2 r1 r2).snakes.1.GetHead =
      getNextPosition (getNextPosition gs.snakes.1.GetHead
        ((gs.ProcessTurn move1 move2 r1 r2).snakes.1.direction))
        ((gs.ProcessTurn move1 move2 r1 r2).snakes.1.direction) := by
  unfold GameState.ProcessTurn
  dsimp only
  rw [if_pos hsp]
  have hmax : max 2 (if gs.snakes.2.speedTurns > 0 then 2 else 1) = 2 := by
    split_ifs <;> rfl
  rw [hmax]
  have hr2 : List.range 2 = [0, 1] := rfl
  rw [hr2]
  rw [runSubSteps_two _ _ _ _ _ hnb]
  obtain ⟨hs0, hc1flag, hc2flag⟩ := subStep_nobreak { gs with turn := gs.turn + 1 }
    move1 move2 2 (if gs.snakes.2.speedTurns > 0 then 2 else 1) 0 hnb
  have hms1 : (({ gs with turn := gs.turn + 1 } : GameState).moveSnakesStep move1 move2 2
      (if gs.snakes.2.speedTurns > 0 then 2 else 1) 0).snakes.1 =
      gs.snakes.1.Move move1 false :=
    moveSnakesStep_snakes1_moves _ move1 move2 _ _ 0 (le_of_eq hsl) (by omega)
  have hA_alive : (gs.snakes.1.Move move1 false).alive = true := by
    rw [Move_alive]; exact ha
  have hbA : (gs.snakes.1.Move move1 false).body ≠ [] := by
    have h1 := CheckCollision_own_alive_body1
      (({ gs with turn := gs.turn + 1 } : GameState).moveSnakesStep move1 move2 2
        (if gs.snakes.2.speedTurns > 0 then 2 else 1) 0)
    rw [CheckCollision_flag_false _ 1 hc1flag, hms1] at h1
    exact h1 hA_alive
  have hb0 : gs.snakes.1.body ≠ [] := by
    intro hcon
    apply hbA
    have hlen0 : (gs.snakes.1.Move move1 false).body.length = 0 := by
      rw [(Move_lengths _ _).1, hcon]
      rfl
    exact List.length_eq_zero.mp hlen0
  have hms1s0 : ((({ gs with turn := gs.turn + 1 } : GameState).subStep move1 move2 2
      (if gs.snakes.2.speedTurns > 0 then 2 else 1) 0).1).snakes.1 =
      gs.snakes.1.Move move1 false := by
    rw [hs0, hms1]
  have hMS2 : (((({ gs with turn := gs.turn + 1 } : GameState).subStep move1 move2 2
      (if gs.snakes.2.speedTurns > 0 then 2 else 1) 0).1).moveSnakesStep move1 move2 2
      (if gs.snakes.2.speedTurns > 0 then 2 else 1) 1).snakes.1 =
      (gs.snakes.1.Move move1 false).Move move1 false := by
    rw [moveSnakesStep_snakes1_moves _ move1 move2 _ _ 1
      (by rw [hms1s0, Move_sleep]; exact le_of_eq hsl) (by omega), hms1s0]
  obtain ⟨hc_b, hc_d, _, _⟩ := subStep_core ((({ gs with turn := gs.turn + 1 } :
    GameState).subStep move1 move2 2
    (if gs.snakes.2.speedTurns > 0 then 2 else 1) 0).1) move1 move2 2
    (if gs.snakes.2.speedTurns > 0 then 2 else 1) 1
  have hLb := hc_b.trans (congrArg Snake.body hMS2)
  have hLd := hc_d.trans (congrArg Snake.direction hMS2)
  have hlenL : ((((({ gs with turn := gs.turn + 1 } : GameState).subStep move1 move2 2
      (if gs.snakes.2.speedTurns > 0 then 2 else 1) 0).1).subStep move1 move2 2
      (if gs.snakes.2.speedTurns > 0 then 2 else 1) 1).1).snakes.1.length =
      (((((( { gs with turn := gs.turn + 1 } : GameState).subStep move1 move2 2
      (if gs.snakes.2.speedTurns > 0 then 2 else 1) 0).1).subStep move1 move2 2
      (if gs.snakes.2.speedTurns > 0 then 2 else 1) 1).1).snakes.1.body.length : Int) := by
    obtain ⟨b1, l1, _, _⟩ := subStep_lengths ((({ gs with turn := gs.turn + 1 } :
      GameState).subStep move1 move2 2
      (if gs.snakes.2.speedTurns > 0 then 2 else 1) 0).1) move1 move2 2
      (if gs.snakes.2.speedTurns > 0 then 2 else 1) 1
    obtain ⟨b0', l0', _, _⟩ := subStep_lengths { gs with turn := gs.turn + 1 }
      move1 move2 2 (if gs.snakes.2.speedTurns > 0 then 2 else 1) 0
    rw [l1, b1, l0', b0']
    exact hinv
  have habL1 := (subStep_alive_body ((({ gs with turn := gs.turn + 1 } :
    GameState).subStep move1 move2 2
    (if gs.snakes.2.speedTurns > 0 then 2 else 1) 0).1) move1 move2 2
    (if gs.snakes.2.speedTurns > 0 then 2 else 1) 1).1
  obtain ⟨hresH, hresD⟩ := afterLoop_headdir1 ((((({ gs with turn := gs.turn + 1 } :
    GameState).subStep move1 move2 2
    (if gs.snakes.2.speedTurns > 0 then 2 else 1) 0).1).subStep move1 move2 2
    (if gs.snakes.2.speedTurns > 0 then 2 else 1) 1).1) r1 r2 hlenL habL1
  rw [hresH, hresD, GetHead_congr _ _ hLb, hLd,
    Move_head (gs.snakes.1.Move move1 false) hA_alive hbA move1,
    Move_head gs.snakes.1 ha hb0 move1, Move_direction_stable]

lemma C5_part2 (gs : GameState) (move1 move2 : Direction) (r1 r2 : Nat × Nat)
    (ha : gs.snakes.2.alive = true) (hsp : gs.snakes.2.speedTurns > 0)
    (hsl : gs.snakes.2.sleepTurns = 0)
    (hinv : gs.snakes.2.length = (gs.snakes.2.body.length : Int))
    (hnb : (({ gs with turn := gs.turn + 1 } : GameState).subStep move1 move2
      (if gs.snakes.1.speedTurns > 0 then 2 else 1) 2 0).2 = false) :
    (gs.ProcessTurn move1 move2 r1 r2).snakes.2.GetHead =
      getNextPosition (getNextPosition gs.snakes.2.GetHead
        ((gs.ProcessTurn move1 move2 r1 r2).snakes.2.direction))
        ((gs.ProcessTurn move1 move2 r1 r2).snakes.2.direction) := by
  unfold GameState.ProcessTurn
  dsimp only
  rw [if_pos hsp]
  have hmax : max (if gs.snakes.1.speedTurns > 0 then 2 else 1) 2 = 2 := by
    split_ifs <;> rfl
  rw [hmax]
  have hr2 : List.range 2 = [0, 1] := rfl
  rw [hr2]
  rw [runSubSteps_two _ _ _ _ _ hnb]
  obtain ⟨hs0, hc1flag, hc2flag⟩ := subStep_nobreak { gs with turn := gs.turn + 1 }
    move1 move2 (if gs.snakes.1.speedTurns > 0 then 2 else 1) 2 0 hnb
  have hms2 : (({ gs with turn := gs.turn + 1 } : GameState).moveSnakesStep move1 move2
      (if gs.snakes.1.speedTurns > 0 then 2 else 1) 2 0).snakes.2 =
      gs.snakes.2.Move move2 false :=
    moveSnakesStep_snakes2_moves _ move1 move2 _ _ 0 (le_of_eq hsl) (by omega)
  have hA_alive : (gs.snakes.2.Move move2 false).alive = true := by
    rw [Move_alive]; exact ha
  have hbA : (gs.snakes.2.Move move2 false).body ≠ [] := by
    have h1 := CheckCollision_own_alive_body2
      ((({ gs with turn := gs.turn + 1 } : GameState).moveSnakesStep move1 move2
        (if gs.snakes.1.speedTurns > 0 then 2 else 1) 2 0).CheckCollision 1).1
    rw [CheckCollision_flag_false _ 2 hc2flag, CheckCollision1_snakes2, hms2] at h1
    exact h1 hA_alive
  have hb0 : gs.snakes.2.body ≠ [] := by
    intro hcon
    apply hbA
    have hlen0 : (gs.snakes.2.Move move2 false).body.length = 0 := by
      rw [(Move_lengths _ _).1, hcon]
      rfl
    exact List.length_eq_zero.mp hlen0
  have hms2s0 : ((({ gs with turn := gs.turn + 1 } : GameState).subStep move1 move2
      (if gs.snakes.1.speedTurns > 0 then 2 else 1) 2 0).1).snakes.2 =
      gs.snakes.2.Move move2 false := by
    rw [hs0, hms2]
  have hMS2 : (((({ gs with turn := gs.turn + 1 } : GameState).subStep move1 move2
      (if gs.snakes.1.speedTurns > 0 then 2 else 1) 2 0).1).moveSnakesStep move1 move2
      (if gs.snakes.1.speedTurns > 0 then 2 else 1) 2 1).snakes.2 =
      (gs.snakes.2.Move move2 false).Move move2 false := by
    rw [moveSnakesStep_snakes2_moves _ move1 move2 _ _ 1
      (by rw [hms2s0, Move_sleep]; exact le_of_eq hsl) (by omega), hms2s0]
  obtain ⟨_, _, hc_b, hc_d⟩ := subStep_core ((({ gs with turn := gs.turn + 1 } :
    GameState).subStep move1 move2
    (if gs.snakes.1.speedTurns > 0 then 2 else 1) 2 0).1) move1 move2
    (if gs.snakes.1.speedTurns > 0 then 2 else 1) 2 1
  have hLb := hc_b.trans (congrArg Snake.body hMS2)
  have hLd := hc_d.trans (congrArg Snake.direction hMS2)
  have hlenL : ((((({ gs with turn := gs.turn + 1 } : GameState).subStep move1 move2
      (if gs.snakes.1.speedTurns > 0 then 2 else 1) 2 0).1).subStep move1 move2
      (if gs.snakes.1.speedTurns > 0 then 2 else 1) 2 1).1).snakes.2.length =
      (((((( { gs with turn := gs.turn + 1 } : GameState).subStep move1 move2
      (if gs.snakes.1.speedTurns > 0 then 2 else 1) 2 0).1).subStep move1 move2
      (if gs.snakes.1.speedTurns > 0 then 2 else 1) 2 1).1).snakes.2.body.length : Int) := by
    obtain ⟨_, _, b1, l1⟩ := subStep_lengths ((({ gs with turn := gs.turn + 1 } :
      GameState).subStep move1 move2
      (if gs.snakes.1.speedTurns > 0 then 2 else 1) 2 0).1) move1 move2
      (if gs.snakes.1.speedTurns > 0 then 2 else 1) 2 1
    obtain ⟨_, _, b0', l0'⟩ := subStep_lengths { gs with turn := gs.turn + 1 }
      move1 move2 (if gs.snakes.1.speedTurns > 0 then 2 else 1) 2 0
    rw [l1, b1, l0', b0']
    exact hinv
  have habL2 := (subStep_alive_body ((({ gs with turn := gs.turn + 1 } :
    GameState).subStep move1 move2
    (if gs.snakes.1.speedTurns > 0 then 2 else 1) 2 0).1) move1 move2
    (if gs.snakes.1.speedTurns > 0 then 2 else 1) 2 1).2
  obtain ⟨hresH, hresD⟩ := afterLoop_headdir2 ((((({ gs with turn := gs.turn + 1 } :
    GameState).subStep move1 move2
    (if gs.snakes.1.speedTurns > 0 then 2 else 1) 2 0).1).subStep move1 move2
    (if gs.snakes.1.speedTurns > 0 then 2 else 1) 2 1).1) r1 r2 hlenL habL2
  rw [hresH, hresD, GetHead_congr _ _ hLb, hLd,
    Move_head (gs.snakes.2.Move move2 false) hA_alive hbA move2,
    Move_head gs.snakes.2 ha hb0 move2, Move_direction_stable]

/-- Claim C5 (amended): a living snake with positive speed-turns and zero
sleep-turns whose length field matches its body length advances exactly two
cells, both in its single resulting direction, provided no collision breaks
the movement loop in the first sub-step. -/
theorem C5_speed_double_move (gs : GameState) (move1 move2 : Direction) (r1 r2 : Nat × Nat) :
    (gs.snakes.1.alive = true → gs.snakes.1.speedTurns > 0 → gs.snakes.1.sleepTurns = 0 →
      gs.snakes.1.length = (gs.snakes.1.body.length : Int) →
      (({ gs with turn := gs.turn + 1 } : GameState).subStep move1 move2 2
        (if gs.snakes.2.speedTurns > 0 then 2 else 1) 0).2 = false →
      (gs.ProcessTurn move1 move2 r1 r2).snakes.1.GetHead =
        getNextPosition (getNextPosition gs.snakes.1.GetHead
          ((gs.ProcessTurn move1 move2 r1 r2).snakes.1.direction))
          ((gs.ProcessTurn move1 move2 r1 r2).snakes.1.direction)) ∧
    (gs.snakes.2.alive = true → gs.snakes.2.speedTurns > 0 → gs.snakes.2.sleepTurns = 0 →
      gs.snakes.2.length = (gs.snakes.2.body.length : Int) →
      (({ gs with turn := gs.turn + 1 } : GameState).subStep move1 move2
        (if gs.snakes.1.speedTurns > 0 then 2 else 1) 2 0).2 = false →
      (gs.ProcessTurn move1 move2 r1 r2).snakes.2.GetHead =
        getNextPosition (getNextPosition gs.snakes.2.GetHead
          ((gs.ProcessTurn move1 move2 r1 r2).snakes.2.direction))
          ((gs.ProcessTurn move1 move2 r1 r2).snakes.2.direction)) :=
  ⟨fun ha hsp hsl hinv hnb => C5_part1 gs move1 move2 r1 r2 ha hsp hsl hinv hnb,
   fun ha hsp hsl hinv hnb => C5_part2 gs move1 move2 r1 r2 ha hsp hsl hinv hnb⟩

/-- An open board where snake 1 moves at double speed without obstruction. -/
def c5State : GameState :=
  { turn := 0, gridWidth := 10, gridHeight := 10,
    snakes :=
      ({ id := 1, body := [⟨2, 2⟩, ⟨2, 1⟩], direction := .down, alive := true, length := 2,
         score := 0, speedTurns := 3, sleepTurns := 0, energy := 50, deathReason := "" },
       { id := 2, body := [⟨7, 7⟩, ⟨7, 8⟩], direction := .up, alive := true, length := 2,
         score := 0, speedTurns := 0, sleepTurns := 0, energy := 50, deathReason := "" }),
    apples := [], map := none, winner := 0, gameOver := false }

/-- Claim C5 (witness): the amended theorem at a concrete speedy turn. -/
theorem C5_witness :
    (c5State.ProcessTurn .down .up (0, 0) (0, 0)).snakes.1.GetHead =
      getNextPosition (getNextPosition c5State.snakes.1.GetHead
        ((c5State.ProcessTurn .down .up (0, 0) (0, 0)).snakes.1.direction))
        ((c5State.ProcessTurn .down .up (0, 0) (0, 0)).snakes.1.direction) :=
  (C5_speed_double_move c5State .down .up (0, 0) (0, 0)).1 (by decide) (by decide)
    (by decide) (by decide) (by decide)

end Engine
